import Mathlib

/-!
Shallow embedding of the statistical core of StatSim Pro
(`src/logic/statistics.js`, `src/logic/normality.js`,
`src/logic/correlation.js`, `src/logic/generator.js` and
`src/utils/validators.js`), together with theorems settling the frozen
claims about that core.

Modelling conventions.  The IEEE-754 numbers of JavaScript and
`Math.sqrt/log/exp/cos` are modelled by exact real arithmetic and
`Real.sqrt/log/exp/cos` (in particular `Math.log(0) = -Infinity` has no
real counterpart; `Real.log` takes the junk value `0` there, which no
claim depends on).  `Array.prototype.sort` with the numeric comparator
`(a, b) => a - b` is a stable ascending sort, modelled by
`List.insertionSort`.  Functions that `throw` are modelled with
`Except String`; helpers the source only calls behind a guard are
modelled total.  Rank conversion is stated generically over a linear
ordered field so that it also evaluates on `ℚ`.
-/

namespace StatSim

/-- `distribucionNormalAcumulada` from statistics.js: Abramowitz-Stegun
polynomial approximation of the standard normal CDF. -/
noncomputable def distribucionNormalAcumulada (z : ℝ) : ℝ :=
  let t := 1 / (1 + 0.2316419 * |z|)
  let d := 0.3989423 * Real.exp (-z * z / 2)
  let p := d * t * (0.3193815 + t * (-0.3565638 + t * (1.781478 + t * (-1.821256 + t * 1.330274))))
  if 0 < z then 1 - p else p

/-- `lnGamma` from statistics.js (Lanczos approximation).  The source
returns `Infinity` for `x ≤ 0`; `ℝ` has no infinity, so that branch is
modelled by the junk value `0` (every caller in the sources guards
`x > 0`, so the branch is unreachable in context). -/
noncomputable def lnGamma (x : ℝ) : ℝ :=
  if x ≤ 0 then 0
  else
    let cof : List ℝ := [76.18009172947146, -86.50532032941677, 24.01409824083091,
      -1.231739572450155, 0.001208650973866179, -0.000005395239384953]
    let tmp := x + 5.5 - (x + 0.5) * Real.log (x + 5.5)
    let ser := 1.000000000190015 + ((List.range 6).map (fun j => cof.getD j 0 / (x + j + 1))).sum;
    -tmp + Real.log (2.5066282746310005 * ser / x)

/-- The series loop inside `betaIncompleta`: the source iterates `i` from
0 to 99, updating `termino` and `suma` and breaking once
`|termino| < 1e-10`.  `fuel` counts the remaining iterations
(`100 - i` at entry). -/
noncomputable def betaSerie (a b x : ℝ) : ℕ → ℕ → ℝ → ℝ → ℝ
  | _, 0, _, suma => suma
  | i, fuel + 1, termino, suma =>
    let termino := termino * ((a + i) / (a + b + i) * x)
    let suma := suma + termino / (a + i + 1)
    if |termino| < 1e-10 then suma else betaSerie a b x (i + 1) fuel termino suma

/-- `betaIncompleta` from statistics.js: regularized incomplete beta via
a series of at most 100 terms. -/
noncomputable def betaIncompleta (x a b : ℝ) : ℝ :=
  if x ≤ 0 then 0
  else if 1 ≤ x then 1
  else
    let lnBeta := lnGamma a + lnGamma b - lnGamma (a + b)
    let front := Real.exp (Real.log x * a + Real.log (1 - x) * b - lnBeta) / a
    front * betaSerie a b x 0 100 1 1

/-- `calcularPValorT` from statistics.js: one-sided t-distribution
p-value. -/
noncomputable def calcularPValorT (t gl : ℝ) : ℝ :=
  betaIncompleta (gl / (gl + t * t)) (gl / 2) 0.5

/-- The linear interpolation inside `calcularPercentil`, at a real-valued
index (`index = percentil/100 * (n-1)` in the source; the JavaScript
operation `index % 1` is `Int.fract` for the nonnegative indexes that arise). -/
noncomputable def interpolar (ordenados : List ℝ) (index : ℝ) : ℝ :=
  let lower := ⌊index⌋
  let upper := ⌈index⌉
  let weight := Int.fract index
  if lower = upper then ordenados.getD lower.toNat 0
  else ordenados.getD lower.toNat 0 * (1 - weight) + ordenados.getD upper.toNat 0 * weight

/-- `calcularPercentil` from statistics.js (expects an already
ascending-sorted list). -/
noncomputable def calcularPercentil (ordenados : List ℝ) (percentil : ℝ) : ℝ :=
  interpolar ordenados (percentil / 100 * ((ordenados.length : ℝ) - 1))

/-- `calcularAsimetria` from statistics.js (bias-adjusted sample
skewness; 0 when the standard deviation is 0 or `n < 3`). -/
noncomputable def calcularAsimetria (valores : List ℝ) (media desviacion : ℝ) (n : ℕ) : ℝ :=
  if desviacion = 0 ∨ n < 3 then 0
  else ((n : ℝ) / (((n : ℝ) - 1) * ((n : ℝ) - 2))) *
    (valores.map (fun v => ((v - media) / desviacion) ^ 3)).sum

/-- `calcularCurtosis` from statistics.js (excess kurtosis with Fisher
adjustment; 0 when the standard deviation is 0 or `n < 4`). -/
noncomputable def calcularCurtosis (valores : List ℝ) (media desviacion : ℝ) (n : ℕ) : ℝ :=
  if desviacion = 0 ∨ n < 4 then 0
  else
    let suma := (valores.map (fun v => ((v - media) / desviacion) ^ 4)).sum
    (n : ℝ) * ((n : ℝ) + 1) / (((n : ℝ) - 1) * ((n : ℝ) - 2) * ((n : ℝ) - 3)) * suma
      - 3 * ((n : ℝ) - 1) ^ 2 / (((n : ℝ) - 2) * ((n : ℝ) - 3))

/-- The `EstadisticasDescriptivas` record computed by
`calcularDescriptivas` in statistics.js. -/
structure EstadisticasDescriptivas where
  n : ℕ
  media : ℝ
  desviacion : ℝ
  varianza : ℝ
  errorEstandar : ℝ
  min : ℝ
  max : ℝ
  rango : ℝ
  mediana : ℝ
  q1 : ℝ
  q3 : ℝ
  iqr : ℝ
  asimetria : ℝ
  curtosis : ℝ

/-- The body of `calcularDescriptivas` from statistics.js, total (the
empty-array throw lives in `calcularDescriptivas` below). -/
noncomputable def descriptivas (valores : List ℝ) : EstadisticasDescriptivas :=
  let n := valores.length
  let media := valores.sum / n
  let sumaCuadrados := (valores.map (fun v => (v - media) ^ 2)).sum
  let varianza := if 1 < n then sumaCuadrados / ((n : ℝ) - 1) else 0
  let desviacion := Real.sqrt varianza
  let ordenados := List.insertionSort (· ≤ ·) valores
  let mn := ordenados.getD 0 0
  let mx := ordenados.getD (n - 1) 0
  let mediana :=
    if n % 2 = 0 then (ordenados.getD (n / 2 - 1) 0 + ordenados.getD (n / 2) 0) / 2
    else ordenados.getD (n / 2) 0
  let q1 := calcularPercentil ordenados 25
  let q3 := calcularPercentil ordenados 75
  { n := n, media := media, desviacion := desviacion, varianza := varianza,
    errorEstandar := desviacion / Real.sqrt n, min := mn, max := mx, rango := mx - mn,
    mediana := mediana, q1 := q1, q3 := q3, iqr := q3 - q1,
    asimetria := calcularAsimetria valores media desviacion n,
    curtosis := calcularCurtosis valores media desviacion n }

/-- `calcularDescriptivas` from statistics.js: throws on an empty
sample. -/
noncomputable def calcularDescriptivas (valores : List ℝ) :
    Except String EstadisticasDescriptivas :=
  if valores.length = 0 then Except.error "Se requiere un array con al menos un valor"
  else Except.ok (descriptivas valores)

section Rangos

variable {α : Type} [LinearOrderedField α]

/-- The tie-grouping while-loop of `convertirARangos` in statistics.js:
`i` is the current 0-based position in the value-sorted pair list; each
maximal run of equal values ending at position `j - 1` receives the
average rank `(i + 1 + j) / 2`, recorded against its original index. -/
def asignarRangos : ℕ → List (α × ℕ) → List (ℕ × α)
  | _, [] => []
  | i, p :: resto =>
    let empates := resto.takeWhile (fun q => q.1 = p.1)
    let j := i + 1 + empates.length
    let rango : α := ((i : α) + 1 + (j : α)) / 2
    (p.2, rango) :: (empates.map (fun q => (q.2, rango)) ++
      asignarRangos j (resto.dropWhile (fun q => q.1 = p.1)))
termination_by _ l => l.length
decreasing_by
  simp only [List.length_cons]
  exact Nat.lt_succ_of_le (List.dropWhile_sublist _).length_le

/-- `convertirARangos` from statistics.js: tie-averaged 1-based ranks,
returned in the positions of the original input.  Generic over a linear
ordered field; the correlation pipeline instantiates it at `ℝ`. -/
def convertirARangos (valores : List α) : List α :=
  let n := valores.length
  let pares := valores.zip (List.range n)
  let ordenados := List.insertionSort (fun a b => a.1 ≤ b.1) pares
  let rangos := asignarRangos 0 ordenados
  (List.range n).map (fun idx => (rangos.lookup idx).getD 0)

end Rangos

/-- Statistic/p-value pair returned by the two raw normality tests in
normality.js. -/
structure ResultadoTest where
  estadistico : ℝ
  pValor : ℝ

/-- `obtenerPesoShapiro` from normality.js: the simplified uniform weight
`1/√n` (the index argument is unused in the source too). -/
noncomputable def obtenerPesoShapiro (n : ℕ) (_i : ℕ) : ℝ := 1 / Real.sqrt n

/-- `estimarPValorShapiro` from normality.js (Royston-style
log-transform to a normal, clamped to [0.001, 0.999]). -/
noncomputable def estimarPValorShapiro (W : ℝ) (n : ℕ) : ℝ :=
  let mu := -1.5861 - 0.31082 * Real.log n - 0.083751 * Real.log n ^ 2
  let sigma := Real.exp (-0.4803 - 0.082676 * Real.log n + 0.0030302 * Real.log n ^ 2)
  let z := (Real.log (1 - W) - mu) / sigma
  let p := 1 - distribucionNormalAcumulada z
  max 0.001 (min 0.999 p)

/-- `estimarPValorKS` from normality.js (Marsaglia asymptotic series with
10 terms, clamped to [0.001, 0.999]); the source sums `k = 1..10`, here
re-indexed over `range 10` via `k + 1`. -/
noncomputable def estimarPValorKS (D : ℝ) (n : ℕ) : ℝ :=
  let lambda := (Real.sqrt n + 0.12 + 0.11 / Real.sqrt n) * D
  let suma := ∑ k ∈ Finset.range 10, (-1 : ℝ) ^ k * Real.exp (-2 * ((k : ℝ) + 1) ^ 2 * lambda ^ 2)
  let p := 2 * suma
  max 0.001 (min 0.999 p)

/-- `shapiroWilk` from normality.js. -/
noncomputable def shapiroWilk (valores : List ℝ) : ResultadoTest :=
  let n := valores.length
  let ordenados := List.insertionSort (· ≤ ·) valores
  let d := descriptivas valores
  let estandarizados := ordenados.map (fun v =>
    if 0 < d.desviacion then (v - d.media) / d.desviacion else 0)
  let numerador := ∑ i ∈ Finset.range (n / 2),
    obtenerPesoShapiro n (i + 1) * (estandarizados.getD (n - 1 - i) 0 - estandarizados.getD i 0)
  let denominador := (estandarizados.map (fun v => v * v)).sum
  let W := if 0 < denominador then numerador * numerador / denominador else 1
  { estadistico := W, pValor := estimarPValorShapiro W n }

/-- `kolmogorovSmirnov` from normality.js: maximal distance between the
empirical CDF (both crossings) and the fitted normal CDF. -/
noncomputable def kolmogorovSmirnov (valores : List ℝ) : ResultadoTest :=
  let n := valores.length
  let ordenados := List.insertionSort (· ≤ ·) valores
  let d := descriptivas valores
  let D := (List.range n).foldl (fun acc i =>
    let z := if 0 < d.desviacion then (ordenados.getD i 0 - d.media) / d.desviacion else 0
    let Fn := ((i : ℝ) + 1) / n
    let Fz := distribucionNormalAcumulada z
    max acc (max |Fn - Fz| |Fz - (i : ℝ) / n|)) 0
  { estadistico := D, pValor := estimarPValorKS D n }

/-- The `ResultadoNormalidad` record from normality.js. -/
structure ResultadoNormalidad where
  prueba : String
  razon : String
  estadistico : ℝ
  pValor : ℝ
  n : ℕ
  normal : Prop
  decision : String

/-- The successful branch of `pruebaDeNormalidad`: test selection by
sample size plus the decoration of the result record. -/
noncomputable def resultadoNormalidad (valores : List ℝ) : ResultadoNormalidad :=
  let n := valores.length
  let resultado := if n < 50 then (shapiroWilk valores, "Shapiro-Wilk", "n < 50")
    else (kolmogorovSmirnov valores, "Kolmogorov-Smirnov", "n ≥ 50")
  { prueba := resultado.2.1, razon := resultado.2.2,
    estadistico := resultado.1.estadistico, pValor := resultado.1.pValor, n := n,
    normal := 0.05 < resultado.1.pValor,
    decision :=
      if 0.05 < resultado.1.pValor then "Los datos siguen una distribución normal (p > 0.05)"
      else "Los datos NO siguen una distribución normal (p ≤ 0.05)" }

/-- `pruebaDeNormalidad` from normality.js: Shapiro-Wilk for
`3 ≤ n < 50`, Kolmogorov-Smirnov for `n ≥ 50`, an error below 3
observations. -/
noncomputable def pruebaDeNormalidad (valores : List ℝ) :
    Except String ResultadoNormalidad :=
  if valores.length < 3 then
    Except.error "Se necesitan al menos 3 observaciones para la prueba de normalidad"
  else Except.ok (resultadoNormalidad valores)

/-- Coefficient/p-value/n triple returned by `correlacionPearson` and
`correlacionSpearman` in correlation.js. -/
structure CoeficienteCorrelacion where
  coeficiente : ℝ
  pValor : ℝ
  n : ℕ

/-- `calcularPValorPearson` from correlation.js: t-based p-value with the
degenerate `|r| ≥ 1` policy, doubled for two-sided tests and clamped to
at most 1. -/
noncomputable def calcularPValorPearson (r : ℝ) (n : ℕ) (tipoPrueba : String) : ℝ :=
  if 1 ≤ |r| then (if r = 0 then 1 else 0)
  else
    let t := r * Real.sqrt (((n : ℝ) - 2) / (1 - r * r))
    let gl := (n : ℝ) - 2
    let pValor := calcularPValorT |t| gl
    let pValor := if tipoPrueba = "bilateral" then pValor * 2 else pValor
    min 1 pValor

/-- `calcularPValorSpearman` from correlation.js: normal approximation
`z = ρ·√(n-1)` for `n > 10`, t-based fallback otherwise. -/
noncomputable def calcularPValorSpearman (rho : ℝ) (n : ℕ) (tipoPrueba : String) : ℝ :=
  if 10 < n then
    let z := rho * Real.sqrt ((n : ℝ) - 1)
    let pValor := 1 - distribucionNormalAcumulada |z|
    let pValor := if tipoPrueba = "bilateral" then pValor * 2 else pValor
    min 1 pValor
  else calcularPValorPearson rho n tipoPrueba

/-- `correlacionPearson` from correlation.js: sample covariance over the
product of the standard deviations, 0 if either deviation is 0. -/
noncomputable def correlacionPearson (valores1 valores2 : List ℝ) (tipoPrueba : String) :
    CoeficienteCorrelacion :=
  let n := valores1.length
  let desc1 := descriptivas valores1
  let desc2 := descriptivas valores2
  let covarianza := (∑ i ∈ Finset.range n,
    (valores1.getD i 0 - desc1.media) * (valores2.getD i 0 - desc2.media)) / ((n : ℝ) - 1)
  let r := if 0 < desc1.desviacion ∧ 0 < desc2.desviacion
    then covarianza / (desc1.desviacion * desc2.desviacion) else 0
  { coeficiente := r, pValor := calcularPValorPearson r n tipoPrueba, n := n }

/-- `correlacionSpearman` from correlation.js: Pearson applied to the
tie-averaged ranks, then a Spearman-specific p-value. -/
noncomputable def correlacionSpearman (valores1 valores2 : List ℝ) (tipoPrueba : String) :
    CoeficienteCorrelacion :=
  let n := valores1.length
  let rangos1 := convertirARangos valores1
  let rangos2 := convertirARangos valores2
  let resultadoPearson := correlacionPearson rangos1 rangos2 tipoPrueba
  { coeficiente := resultadoPearson.coeficiente,
    pValor := calcularPValorSpearman resultadoPearson.coeficiente n tipoPrueba, n := n }

/-- The interpretation record built by `interpretarCorrelacion` in
correlation.js. -/
structure InterpretacionCorrelacion where
  fuerza : String
  direccion : String
  significancia : String
  texto : String

/-- `interpretarCorrelacion` from correlation.js, with the
`UMBRALES_CORRELACION` and `TEXTOS` constants of core/config.js inlined
as literals. -/
noncomputable def interpretarCorrelacion (r p : ℝ) : InterpretacionCorrelacion :=
  let direccion := if 0 ≤ r then "positiva" else "negativa"
  let absR := |r|
  let fuerza := if absR < 0.1 then "nula o muy débil"
    else if absR < 0.3 then "débil"
    else if absR < 0.5 then "moderada"
    else if absR < 0.7 then "moderada-fuerte"
    else if absR < 0.9 then "fuerte"
    else "muy fuerte"
  let significancia := if p < 0.001 then "altamente significativa (p < .001)"
    else if p < 0.01 then "muy significativa (p < .01)"
    else if p < 0.05 then "significativa (p < .05)"
    else "no significativa (p ≥ .05)"
  { fuerza := fuerza, direccion := direccion, significancia := significancia,
    texto := "Correlación " ++ fuerza ++ " " ++ direccion ++ " " ++ significancia }

/-- The `ResultadoCorrelacion` record from correlation.js. -/
structure ResultadoCorrelacion where
  coeficiente : ℝ
  pValor : ℝ
  n : ℕ
  tipoCorrelacion : String
  tipoPrueba : String
  normalidad1 : ResultadoNormalidad
  normalidad2 : ResultadoNormalidad
  interpretacion : InterpretacionCorrelacion

open Classical in
/-- `calcularCorrelacion` from correlation.js: length and minimum-n
guards, a normality test on each sample, then the automatic
Pearson/Spearman choice. -/
noncomputable def calcularCorrelacion (valores1 valores2 : List ℝ) (tipoPrueba : String) :
    Except String ResultadoCorrelacion :=
  if valores1.length ≠ valores2.length then
    Except.error "Las columnas deben tener el mismo número de valores"
  else if valores1.length < 3 then
    Except.error "Se necesitan al menos 3 pares de valores"
  else do
    let normalidad1 ← pruebaDeNormalidad valores1
    let normalidad2 ← pruebaDeNormalidad valores2
    let resultado := if normalidad1.normal ∧ normalidad2.normal
      then (correlacionPearson valores1 valores2 tipoPrueba, "Pearson")
      else (correlacionSpearman valores1 valores2 tipoPrueba, "Spearman (Rho)")
    Except.ok
      { coeficiente := resultado.1.coeficiente, pValor := resultado.1.pValor,
        n := resultado.1.n, tipoCorrelacion := resultado.2, tipoPrueba := tipoPrueba,
        normalidad1 := normalidad1, normalidad2 := normalidad2,
        interpretacion := interpretarCorrelacion resultado.1.coeficiente resultado.1.pValor }

/-- `generarValorNormal` from statistics.js (Box-Muller), as a function
of the two underlying uniform draws `u1, u2` (the source obtains them
from `Math.random()`, redrawing `u1` while it is exactly 0). -/
noncomputable def generarValorNormal (media desviacion u1 u2 : ℝ) : ℝ :=
  media + desviacion * (Real.sqrt (-2 * Real.log u1) * Real.cos (2 * Real.pi * u2))

/-- The `{items, total}` record returned by `generarPuntajesPrueba` in
generator.js. -/
structure PuntajesPrueba where
  items : List ℝ
  total : ℝ

/-- `generarPuntajesPrueba` from generator.js, with the per-item uniform
draws passed in as streams `u1, u2`; null bounds default to the 1..7
Likert range, and the JavaScript `Math.round` is `⌊x + 1/2⌋`. -/
noncomputable def generarPuntajesPrueba (numItems : ℕ) (mediaPorItem desviacionPorItem : ℝ)
    (minItem maxItem : Option ℝ) (u1 u2 : ℕ → ℝ) : PuntajesPrueba :=
  let minItem := minItem.getD 1
  let maxItem := maxItem.getD 7
  let items := (List.range numItems).map (fun i =>
    let valor := generarValorNormal mediaPorItem desviacionPorItem (u1 i) (u2 i)
    let valor := max minItem (min maxItem valor)
    ((⌊valor + 1 / 2⌋ : ℤ) : ℝ))
  { items := items, total := items.sum }

/-- Options record of `validarNumero` from utils/validators.js. -/
structure OpcionesValidacion where
  min : Option ℝ := none
  max : Option ℝ := none
  entero : Bool := false
  positivo : Bool := false

/-- The `valido` verdict of `validarNumero` from utils/validators.js on
an already-numeric input (the `parseFloat`/`isNaN`/`isFinite` front door
never rejects a real number; the error-message list is not modelled). -/
def validarNumero (valor : ℝ) (opciones : OpcionesValidacion) : Prop :=
  (opciones.entero = true → ∃ k : ℤ, valor = (k : ℝ)) ∧
  (opciones.positivo = true → 0 < valor) ∧
  (∀ m, opciones.min = some m → m ≤ valor) ∧
  (∀ m, opciones.max = some m → valor ≤ m)

/-- The `valido` verdict of `validarConfiguracionPrueba` from
utils/validators.js (error messages and advisory warnings are not
modelled). -/
def validarConfiguracionPrueba (nombre : String) (numItems media desviacion : ℝ)
    (minimo maximo : Option ℝ) : Prop :=
  nombre.trim ≠ "" ∧
  validarNumero numItems { min := some 1, entero := true } ∧
  validarNumero media {} ∧
  validarNumero desviacion { positivo := true } ∧
  (∀ a b, minimo = some a → maximo = some b → a < b)

/-! Basic lemmas about the embedding. -/

/-- Both clamps used by the p-value estimators stay inside
[0.001, 0.999]. -/
lemma clamp_mem (p : ℝ) :
    0.001 ≤ max 0.001 (min 0.999 p) ∧ max 0.001 (min 0.999 p) ≤ 0.999 :=
  ⟨le_max_left _ _, max_le (by norm_num) (min_le_left _ _)⟩

lemma estimarPValorShapiro_mem (W : ℝ) (n : ℕ) :
    0.001 ≤ estimarPValorShapiro W n ∧ estimarPValorShapiro W n ≤ 0.999 :=
  clamp_mem _

lemma estimarPValorKS_mem (D : ℝ) (n : ℕ) :
    0.001 ≤ estimarPValorKS D n ∧ estimarPValorKS D n ≤ 0.999 :=
  clamp_mem _

lemma shapiroWilk_pValor (valores : List ℝ) :
    (shapiroWilk valores).pValor =
      estimarPValorShapiro (shapiroWilk valores).estadistico valores.length := by
  simp [shapiroWilk]

lemma kolmogorovSmirnov_pValor (valores : List ℝ) :
    (kolmogorovSmirnov valores).pValor =
      estimarPValorKS (kolmogorovSmirnov valores).estadistico valores.length := by
  simp [kolmogorovSmirnov]

lemma pruebaDeNormalidad_eq_ok (valores : List ℝ) (h : ¬ valores.length < 3) :
    pruebaDeNormalidad valores = Except.ok (resultadoNormalidad valores) := by
  simp [pruebaDeNormalidad, h]

lemma pruebaDeNormalidad_ok_inv {valores : List ℝ} {r : ResultadoNormalidad}
    (h : pruebaDeNormalidad valores = Except.ok r) :
    ¬ valores.length < 3 ∧ r = resultadoNormalidad valores := by
  by_cases h3 : valores.length < 3
  · simp [pruebaDeNormalidad, h3] at h
  · rw [pruebaDeNormalidad_eq_ok _ h3] at h
    exact ⟨h3, (Except.ok.injEq _ _ ▸ h.symm :)⟩

lemma resultadoNormalidad_lt50 (valores : List ℝ) (h : valores.length < 50) :
    resultadoNormalidad valores =
      { prueba := "Shapiro-Wilk", razon := "n < 50",
        estadistico := (shapiroWilk valores).estadistico,
        pValor := (shapiroWilk valores).pValor, n := valores.length,
        normal := 0.05 < (shapiroWilk valores).pValor,
        decision :=
          if 0.05 < (shapiroWilk valores).pValor then
            "Los datos siguen una distribución normal (p > 0.05)"
          else "Los datos NO siguen una distribución normal (p ≤ 0.05)" } := by
  simp [resultadoNormalidad, h]

lemma resultadoNormalidad_ge50 (valores : List ℝ) (h : ¬ valores.length < 50) :
    resultadoNormalidad valores =
      { prueba := "Kolmogorov-Smirnov", razon := "n ≥ 50",
        estadistico := (kolmogorovSmirnov valores).estadistico,
        pValor := (kolmogorovSmirnov valores).pValor, n := valores.length,
        normal := 0.05 < (kolmogorovSmirnov valores).pValor,
        decision :=
          if 0.05 < (kolmogorovSmirnov valores).pValor then
            "Los datos siguen una distribución normal (p > 0.05)"
          else "Los datos NO siguen una distribución normal (p ≤ 0.05)" } := by
  simp [resultadoNormalidad, h]

lemma resultadoNormalidad_normal_iff (valores : List ℝ) :
    (resultadoNormalidad valores).normal ↔ 0.05 < (resultadoNormalidad valores).pValor := by
  by_cases h : valores.length < 50
  · rw [resultadoNormalidad_lt50 _ h]
  · rw [resultadoNormalidad_ge50 _ h]

lemma resultadoNormalidad_pValor_mem (valores : List ℝ) :
    0.001 ≤ (resultadoNormalidad valores).pValor ∧
      (resultadoNormalidad valores).pValor ≤ 0.999 := by
  by_cases h : valores.length < 50
  · rw [resultadoNormalidad_lt50 _ h]
    simpa [shapiroWilk_pValor] using estimarPValorShapiro_mem _ valores.length
  · rw [resultadoNormalidad_ge50 _ h]
    simpa [kolmogorovSmirnov_pValor] using estimarPValorKS_mem _ valores.length

/-! Claim C2. -/

/-- C2: for every sample accepted by `pruebaDeNormalidad` (length ≥ 3),
the result satisfies `isNormal ⇔ pValue > 0.05`, and the p-value lies in
[0.001, 0.999]; moreover both raw estimators (the Shapiro-Wilk path and
the Kolmogorov-Smirnov path) clamp into [0.001, 0.999] on every input. -/
theorem normalidad_pvalor_invariante :
    (∀ (valores : List ℝ) (r : ResultadoNormalidad),
      pruebaDeNormalidad valores = Except.ok r →
        ((r.normal ↔ 0.05 < r.pValor) ∧ 0.001 ≤ r.pValor ∧ r.pValor ≤ 0.999)) ∧
    (∀ (W : ℝ) (n : ℕ), 0.001 ≤ estimarPValorShapiro W n ∧ estimarPValorShapiro W n ≤ 0.999) ∧
    (∀ (D : ℝ) (n : ℕ), 0.001 ≤ estimarPValorKS D n ∧ estimarPValorKS D n ≤ 0.999) := by
  refine ⟨?_, estimarPValorShapiro_mem, estimarPValorKS_mem⟩
  intro valores r h
  obtain ⟨-, rfl⟩ := pruebaDeNormalidad_ok_inv h
  exact ⟨resultadoNormalidad_normal_iff valores, resultadoNormalidad_pValor_mem valores⟩

/-- Witness for C2 at the concrete sample [1, 2, 3]. -/
theorem normalidad_pvalor_invariante_witness :
    ((resultadoNormalidad [1, 2, 3]).normal ↔ 0.05 < (resultadoNormalidad [1, 2, 3]).pValor) ∧
      0.001 ≤ (resultadoNormalidad [1, 2, 3]).pValor ∧
      (resultadoNormalidad [1, 2, 3]).pValor ≤ 0.999 :=
  normalidad_pvalor_invariante.1 [1, 2, 3] _ (by simp [pruebaDeNormalidad])

/-! Claim C3. -/

/-- C3: `pruebaDeNormalidad` errors for `n < 3`; for `3 ≤ n < 50` it runs
Shapiro-Wilk and records the reason "n < 50"; for `n ≥ 50` it runs
Kolmogorov-Smirnov and records the reason "n ≥ 50" (the witness
instantiates this at a sample of 60 values). -/
theorem normalidad_seleccion_prueba (valores : List ℝ) :
    (valores.length < 3 →
      pruebaDeNormalidad valores =
        Except.error "Se necesitan al menos 3 observaciones para la prueba de normalidad") ∧
    (3 ≤ valores.length → valores.length < 50 →
      pruebaDeNormalidad valores = Except.ok (resultadoNormalidad valores) ∧
      (resultadoNormalidad valores).prueba = "Shapiro-Wilk" ∧
      (resultadoNormalidad valores).razon = "n < 50" ∧
      (resultadoNormalidad valores).estadistico = (shapiroWilk valores).estadistico ∧
      (resultadoNormalidad valores).pValor = (shapiroWilk valores).pValor) ∧
    (50 ≤ valores.length →
      pruebaDeNormalidad valores = Except.ok (resultadoNormalidad valores) ∧
      (resultadoNormalidad valores).prueba = "Kolmogorov-Smirnov" ∧
      (resultadoNormalidad valores).razon = "n ≥ 50" ∧
      (resultadoNormalidad valores).estadistico = (kolmogorovSmirnov valores).estadistico ∧
      (resultadoNormalidad valores).pValor = (kolmogorovSmirnov valores).pValor) := by
  refine ⟨fun h => by simp [pruebaDeNormalidad, h], fun h3 h50 => ?_, fun h50 => ?_⟩
  · refine ⟨pruebaDeNormalidad_eq_ok valores (by omega), ?_⟩
    rw [resultadoNormalidad_lt50 valores h50]
    exact ⟨rfl, rfl, rfl, rfl⟩
  · refine ⟨pruebaDeNormalidad_eq_ok valores (by omega), ?_⟩
    rw [resultadoNormalidad_ge50 valores (by omega)]
    exact ⟨rfl, rfl, rfl, rfl⟩

/-- Witness for C3 at a concrete sample of 60 values: the reported test
is Kolmogorov-Smirnov, with selection reason "n ≥ 50". -/
theorem normalidad_seleccion_prueba_witness :
    (resultadoNormalidad (List.replicate 60 (0 : ℝ))).prueba = "Kolmogorov-Smirnov" ∧
      (resultadoNormalidad (List.replicate 60 (0 : ℝ))).razon = "n ≥ 50" := by
  have h := (normalidad_seleccion_prueba (List.replicate 60 (0 : ℝ))).2.2 (by simp)
  exact ⟨h.2.1, h.2.2.1⟩

/-! Claim C7. -/

/-- C7: the p-value produced by the Spearman computation is, for
`n > 10`, the normal approximation `p = 1 - normalCDF |ρ·√(n-1)|`,
doubled for a two-sided test and clamped to at most 1, and, for
`n ≤ 10`, exactly the Pearson/t-based p-value formula applied to ρ
(routing to Spearman itself is the subject of the C1 theorem). -/
theorem spearman_pvalor_formula (valores1 valores2 : List ℝ) (tipoPrueba : String) :
    (correlacionSpearman valores1 valores2 tipoPrueba).pValor =
      if 10 < valores1.length then
        min 1 ((if tipoPrueba = "bilateral" then 2 else 1) *
          (1 - distribucionNormalAcumulada
            |(correlacionSpearman valores1 valores2 tipoPrueba).coeficiente *
              Real.sqrt ((valores1.length : ℝ) - 1)|))
      else
        calcularPValorPearson (correlacionSpearman valores1 valores2 tipoPrueba).coeficiente
          valores1.length tipoPrueba := by
  by_cases h10 : 10 < valores1.length <;>
    by_cases hb : tipoPrueba = "bilateral" <;>
      simp [correlacionSpearman, calcularPValorSpearman, h10, hb, mul_comm]

/-! Claim C4. -/

/-- C4 counterexample: the generator does not fail on a configuration
with `stddev = 0`.  `generarPuntajesPrueba 20 50 0 1 100` (for any
underlying draws, here constantly 1/2) returns normally, with every item
equal to 50 and total 1000 — exactly the round-trip behaviour that the
testable property in section 8 of the spec demands of this input. -/
theorem generador_no_valida_contraejemplo :
    generarPuntajesPrueba 20 50 0 (some 1) (some 100) (fun _ => 1 / 2) (fun _ => 1 / 2) =
      { items := List.replicate 20 50, total := 1000 } := by
  have hv : generarValorNormal 50 0 (1 / 2) (1 / 2) = 50 := by
    simp [generarValorNormal]
  have hclamp : max ((1 : ℝ)) (min 100 50) = 50 := by
    rw [min_eq_right (by norm_num : (50 : ℝ) ≤ 100), max_eq_right (by norm_num : (1 : ℝ) ≤ 50)]
  have hfloor : (⌊(50 : ℝ) + 1 / 2⌋ : ℤ) = 50 := by
    rw [Int.floor_eq_iff]
    norm_num
  have hitems : (List.range 20).map (fun _ : ℕ => (50 : ℝ)) = List.replicate 20 50 := by
    rw [List.map_const']
    simp
  simp only [generarPuntajesPrueba, Option.getD_some, hv, hclamp, hfloor, Int.cast_ofNat]
  rw [hitems]
  simp [List.sum_replicate]
  norm_num

/-- C4 as amended: the generator functions perform no configuration
validation and never fail — they return normally for every
configuration, including `stddev ≤ 0`, `itemCount < 1` and `min ≥ max`;
those invalid configurations are instead rejected by the separate
`validarConfiguracionPrueba` check of utils/validators.js, which returns
`valido = false` to its caller rather than throwing. -/
theorem generador_sin_validacion :
    (∀ (nombre : String) (numItems media desviacion : ℝ) (minimo maximo : Option ℝ),
      (desviacion ≤ 0 ∨ numItems < 1 ∨ (∃ a b, minimo = some a ∧ maximo = some b ∧ b ≤ a)) →
      ¬ validarConfiguracionPrueba nombre numItems media desviacion minimo maximo) ∧
    (∀ (numItems : ℕ) (media desviacion : ℝ) (minimo maximo : Option ℝ) (u1 u2 : ℕ → ℝ),
      (generarPuntajesPrueba numItems media desviacion minimo maximo u1 u2).items.length
          = numItems ∧
      (generarPuntajesPrueba numItems media desviacion minimo maximo u1 u2).total =
        (generarPuntajesPrueba numItems media desviacion minimo maximo u1 u2).items.sum) := by
  constructor
  · rintro nombre numItems media desviacion minimo maximo h
    rintro ⟨-, hitems, -, hdesv, hrango⟩
    rcases h with h | h | ⟨a, b, ha, hb, hba⟩
    · exact absurd (hdesv.2.1 rfl) (by linarith)
    · exact absurd (hitems.2.2.1 1 rfl) (by linarith)
    · exact absurd (hrango a b ha hb) (by linarith)
  · intro numItems media desviacion minimo maximo u1 u2
    exact ⟨by simp [generarPuntajesPrueba], rfl⟩

/-- Witness for the amended C4 theorem at a concrete invalid configuration
(`stddev = 0`): the validator rejects it while the generator still
produces the requested number of items. -/
theorem generador_sin_validacion_witness :
    (¬ validarConfiguracionPrueba "Prueba" 5 3 0 none none) ∧
      (generarPuntajesPrueba 5 3 0 none none (fun _ => 1 / 2) (fun _ => 1 / 2)).items.length
        = 5 :=
  ⟨generador_sin_validacion.1 "Prueba" 5 3 0 none none (Or.inl le_rfl),
    (generador_sin_validacion.2 5 3 0 none none _ _).1⟩

/-! Claim C10. -/

/-- C10: whenever the effective bounds (defaulting to 1 and 7 when
omitted) are integers `a ≤ b`, `generarPuntajesPrueba` returns exactly
`numItems` items, every item is an integer between the bounds, and the
total is the sum of the items — hence `numItems·a ≤ total ≤ numItems·b`
— for every sequence of underlying random draws. -/
theorem puntajes_prueba_acotados (numItems : ℕ) (media desviacion : ℝ)
    (minItem maxItem : Option ℝ) (u1 u2 : ℕ → ℝ) (a b : ℤ)
    (ha : minItem.getD 1 = (a : ℝ)) (hb : maxItem.getD 7 = (b : ℝ)) (hab : a ≤ b) :
    (generarPuntajesPrueba numItems media desviacion minItem maxItem u1 u2).items.length
        = numItems ∧
    (∀ x ∈ (generarPuntajesPrueba numItems media desviacion minItem maxItem u1 u2).items,
      ∃ k : ℤ, x = (k : ℝ) ∧ a ≤ k ∧ k ≤ b) ∧
    (generarPuntajesPrueba numItems media desviacion minItem maxItem u1 u2).total =
      (generarPuntajesPrueba numItems media desviacion minItem maxItem u1 u2).items.sum ∧
    (numItems : ℝ) * a ≤
      (generarPuntajesPrueba numItems media desviacion minItem maxItem u1 u2).total ∧
    (generarPuntajesPrueba numItems media desviacion minItem maxItem u1 u2).total ≤
      (numItems : ℝ) * b := by
  have hmem : ∀ x ∈ (generarPuntajesPrueba numItems media desviacion minItem maxItem
      u1 u2).items, ∃ k : ℤ, x = (k : ℝ) ∧ a ≤ k ∧ k ≤ b := by
    intro x hx
    simp only [generarPuntajesPrueba, List.mem_map, List.mem_range] at hx
    obtain ⟨i, -, rfl⟩ := hx
    rw [ha, hb]
    set v := generarValorNormal media desviacion (u1 i) (u2 i) with hv
    refine ⟨⌊max (a : ℝ) (min (b : ℝ) v) + 1 / 2⌋, rfl, ?_, ?_⟩
    · rw [Int.le_floor]
      have : (a : ℝ) ≤ max (a : ℝ) (min (b : ℝ) v) := le_max_left _ _
      linarith
    · have hle : max (a : ℝ) (min (b : ℝ) v) ≤ (b : ℝ) :=
        max_le (by exact_mod_cast hab) (min_le_left _ _)
      have : (⌊max (a : ℝ) (min (b : ℝ) v) + 1 / 2⌋ : ℤ) < b + 1 := by
        rw [Int.floor_lt]
        push_cast
        linarith
      omega
  have hlen : (generarPuntajesPrueba numItems media desviacion minItem maxItem
      u1 u2).items.length = numItems := by
    simp [generarPuntajesPrueba]
  refine ⟨hlen, hmem, rfl, ?_, ?_⟩
  · have := List.card_nsmul_le_sum
      ((generarPuntajesPrueba numItems media desviacion minItem maxItem u1 u2).items)
      ((a : ℝ)) ?_
    · rw [hlen, nsmul_eq_mul] at this
      exact this
    · intro x hx
      obtain ⟨k, rfl, hk, -⟩ := hmem x hx
      exact_mod_cast hk
  · have := List.sum_le_card_nsmul
      ((generarPuntajesPrueba numItems media desviacion minItem maxItem u1 u2).items)
      ((b : ℝ)) ?_
    · rw [hlen, nsmul_eq_mul] at this
      exact this
    · intro x hx
      obtain ⟨k, rfl, -, hk⟩ := hmem x hx
      exact_mod_cast hk

/-- Witness for C10 with omitted bounds (defaulting to the 1..7 Likert
range) on 2 items. -/
theorem puntajes_prueba_acotados_witness :
    (generarPuntajesPrueba 2 4 1 none none (fun _ => 1 / 2) (fun _ => 1 / 2)).items.length
        = 2 ∧
    (∀ x ∈ (generarPuntajesPrueba 2 4 1 none none (fun _ => 1 / 2) (fun _ => 1 / 2)).items,
      ∃ k : ℤ, x = (k : ℝ) ∧ 1 ≤ k ∧ k ≤ 7) ∧
    (generarPuntajesPrueba 2 4 1 none none (fun _ => 1 / 2) (fun _ => 1 / 2)).total =
      (generarPuntajesPrueba 2 4 1 none none (fun _ => 1 / 2) (fun _ => 1 / 2)).items.sum ∧
    (2 : ℝ) * 1 ≤ (generarPuntajesPrueba 2 4 1 none none (fun _ => 1 / 2)
      (fun _ => 1 / 2)).total ∧
    (generarPuntajesPrueba 2 4 1 none none (fun _ => 1 / 2) (fun _ => 1 / 2)).total
        ≤ (2 : ℝ) * 7 := by
  have h := puntajes_prueba_acotados 2 4 1 none none (fun _ => 1 / 2) (fun _ => 1 / 2) 1 7
    (by norm_num) (by norm_num) (by norm_num)
  simpa using h

/-! Claim C9. -/

lemma calcularDescriptivas_ok_inv {valores : List ℝ} {d : EstadisticasDescriptivas}
    (h : calcularDescriptivas valores = Except.ok d) :
    valores.length ≠ 0 ∧ d = descriptivas valores := by
  by_cases h0 : valores.length = 0
  · rw [calcularDescriptivas, if_pos h0] at h
    simp at h
  · rw [calcularDescriptivas, if_neg h0] at h
    exact ⟨h0, (Except.ok.inj h).symm⟩

lemma descriptivas_media (valores : List ℝ) :
    (descriptivas valores).media = valores.sum / valores.length := rfl

lemma descriptivas_varianza (valores : List ℝ) :
    (descriptivas valores).varianza =
      if 1 < valores.length then
        (valores.map (fun v => (v - valores.sum / valores.length) ^ 2)).sum /
          ((valores.length : ℝ) - 1)
      else 0 := rfl

lemma descriptivas_desviacion (valores : List ℝ) :
    (descriptivas valores).desviacion = Real.sqrt (descriptivas valores).varianza := rfl

lemma descriptivas_asimetria (valores : List ℝ) :
    (descriptivas valores).asimetria =
      calcularAsimetria valores (descriptivas valores).media
        (descriptivas valores).desviacion valores.length := rfl

lemma descriptivas_curtosis (valores : List ℝ) :
    (descriptivas valores).curtosis =
      calcularCurtosis valores (descriptivas valores).media
        (descriptivas valores).desviacion valores.length := rfl

lemma descriptivas_desviacion_const {valores : List ℝ} {c : ℝ}
    (hne : valores.length ≠ 0) (hc : ∀ x ∈ valores, x = c) :
    (descriptivas valores).desviacion = 0 := by
  have hlen : (valores.length : ℝ) ≠ 0 := Nat.cast_ne_zero.mpr hne
  have hm : valores.sum / (valores.length : ℝ) = c := by
    rw [List.sum_eq_card_nsmul valores c hc, nsmul_eq_mul, mul_comm, mul_div_assoc,
      div_self hlen, mul_one]
  have hsq : (valores.map (fun v => (v - valores.sum / valores.length) ^ 2)).sum = 0 := by
    rw [List.sum_eq_card_nsmul _ 0 ?_, smul_zero]
    intro y hy
    obtain ⟨x, hx, rfl⟩ := List.mem_map.mp hy
    rw [hc x hx, hm, sub_self]
    ring
  rw [descriptivas_desviacion, descriptivas_varianza, hsq]
  by_cases h1 : 1 < valores.length
  · rw [if_pos h1, zero_div, Real.sqrt_zero]
  · rw [if_neg h1, Real.sqrt_zero]

/-- C9: on every non-empty constant sample, `calcularDescriptivas`
returns (rather than failing) with stddev, skewness and kurtosis all 0;
more generally skewness is 0 whenever stddev = 0 or n < 3, and kurtosis
is 0 whenever stddev = 0 or n < 4. -/
theorem descriptivas_muestra_constante :
    (∀ (valores : List ℝ) (c : ℝ) (d : EstadisticasDescriptivas),
      calcularDescriptivas valores = Except.ok d → (∀ x ∈ valores, x = c) →
      d.desviacion = 0 ∧ d.asimetria = 0 ∧ d.curtosis = 0) ∧
    (∀ (valores : List ℝ) (d : EstadisticasDescriptivas),
      calcularDescriptivas valores = Except.ok d →
      ((d.desviacion = 0 ∨ valores.length < 3) → d.asimetria = 0) ∧
      ((d.desviacion = 0 ∨ valores.length < 4) → d.curtosis = 0)) := by
  have hguard : ∀ valores : List ℝ,
      (((descriptivas valores).desviacion = 0 ∨ valores.length < 3) →
        (descriptivas valores).asimetria = 0) ∧
      (((descriptivas valores).desviacion = 0 ∨ valores.length < 4) →
        (descriptivas valores).curtosis = 0) := by
    intro v
    constructor
    · intro h
      rw [descriptivas_asimetria, calcularAsimetria, if_pos h]
    · intro h
      rw [descriptivas_curtosis, calcularCurtosis, if_pos h]
  constructor
  · intro v c d hd hc
    obtain ⟨h0, rfl⟩ := calcularDescriptivas_ok_inv hd
    have hdesv := descriptivas_desviacion_const h0 hc
    exact ⟨hdesv, (hguard v).1 (Or.inl hdesv), (hguard v).2 (Or.inl hdesv)⟩
  · intro v d hd
    obtain ⟨h0, rfl⟩ := calcularDescriptivas_ok_inv hd
    exact hguard v

/-- Witness for C9 at the constant sample [2, 2, 2]. -/
theorem descriptivas_muestra_constante_witness :
    (descriptivas [2, 2, 2]).desviacion = 0 ∧ (descriptivas [2, 2, 2]).asimetria = 0 ∧
      (descriptivas [2, 2, 2]).curtosis = 0 :=
  descriptivas_muestra_constante.1 [2, 2, 2] 2 _
    (by rw [calcularDescriptivas, if_neg (by simp)])
    (by intro x hx; simpa using hx)

/-! Claim C1. -/

instance : Inhabited ResultadoNormalidad :=
  ⟨{ prueba := "", razon := "", estadistico := 0, pValor := 0, n := 0,
     normal := True, decision := "" }⟩

instance : Inhabited InterpretacionCorrelacion :=
  ⟨{ fuerza := "", direccion := "", significancia := "", texto := "" }⟩

instance : Inhabited ResultadoCorrelacion :=
  ⟨{ coeficiente := 0, pValor := 0, n := 0, tipoCorrelacion := "", tipoPrueba := "",
     normalidad1 := default, normalidad2 := default, interpretacion := default }⟩

open Classical in
lemma calcularCorrelacion_casos (valores1 valores2 : List ℝ) (tipoPrueba : String)
    (hlen : valores1.length = valores2.length) (h3 : ¬ valores1.length < 3) :
    ∃ r, calcularCorrelacion valores1 valores2 tipoPrueba = Except.ok r ∧
      r.normalidad1 = resultadoNormalidad valores1 ∧
      r.normalidad2 = resultadoNormalidad valores2 ∧
      ((resultadoNormalidad valores1).normal ∧ (resultadoNormalidad valores2).normal →
        r.tipoCorrelacion = "Pearson" ∧
        r.coeficiente = (correlacionPearson valores1 valores2 tipoPrueba).coeficiente ∧
        r.pValor = (correlacionPearson valores1 valores2 tipoPrueba).pValor) ∧
      (¬ ((resultadoNormalidad valores1).normal ∧ (resultadoNormalidad valores2).normal) →
        r.tipoCorrelacion = "Spearman (Rho)" ∧
        r.coeficiente = (correlacionSpearman valores1 valores2 tipoPrueba).coeficiente ∧
        r.pValor = (correlacionSpearman valores1 valores2 tipoPrueba).pValor) := by
  have hne : ¬ valores1.length ≠ valores2.length := not_not_intro hlen
  have h32 : ¬ valores2.length < 3 := hlen ▸ h3
  by_cases hn : (resultadoNormalidad valores1).normal ∧ (resultadoNormalidad valores2).normal
  · refine ⟨{ coeficiente := (correlacionPearson valores1 valores2 tipoPrueba).coeficiente,
              pValor := (correlacionPearson valores1 valores2 tipoPrueba).pValor,
              n := (correlacionPearson valores1 valores2 tipoPrueba).n,
              tipoCorrelacion := "Pearson", tipoPrueba := tipoPrueba,
              normalidad1 := resultadoNormalidad valores1,
              normalidad2 := resultadoNormalidad valores2,
              interpretacion := interpretarCorrelacion
                (correlacionPearson valores1 valores2 tipoPrueba).coeficiente
                (correlacionPearson valores1 valores2 tipoPrueba).pValor },
      ?_, rfl, rfl, fun _ => ⟨rfl, rfl, rfl⟩, fun hc => absurd hn hc⟩
    simp only [calcularCorrelacion, if_neg hne, if_neg h3]
    rw [pruebaDeNormalidad_eq_ok valores1 h3, pruebaDeNormalidad_eq_ok valores2 h32]
    show Except.ok _ = Except.ok _
    rw [if_pos hn]
  · refine ⟨{ coeficiente := (correlacionSpearman valores1 valores2 tipoPrueba).coeficiente,
              pValor := (correlacionSpearman valores1 valores2 tipoPrueba).pValor,
              n := (correlacionSpearman valores1 valores2 tipoPrueba).n,
              tipoCorrelacion := "Spearman (Rho)", tipoPrueba := tipoPrueba,
              normalidad1 := resultadoNormalidad valores1,
              normalidad2 := resultadoNormalidad valores2,
              interpretacion := interpretarCorrelacion
                (correlacionSpearman valores1 valores2 tipoPrueba).coeficiente
                (correlacionSpearman valores1 valores2 tipoPrueba).pValor },
      ?_, rfl, rfl, fun hc => absurd hc hn, fun _ => ⟨rfl, rfl, rfl⟩⟩
    simp only [calcularCorrelacion, if_neg hne, if_neg h3]
    rw [pruebaDeNormalidad_eq_ok valores1 h3, pruebaDeNormalidad_eq_ok valores2 h32]
    show Except.ok _ = Except.ok _
    rw [if_neg hn]

lemma calcularCorrelacion_ok_inv {valores1 valores2 : List ℝ} {tipoPrueba : String}
    {r : ResultadoCorrelacion}
    (hr : calcularCorrelacion valores1 valores2 tipoPrueba = Except.ok r) :
    valores1.length = valores2.length ∧ ¬ valores1.length < 3 := by
  by_cases hne : valores1.length ≠ valores2.length
  · rw [calcularCorrelacion, if_pos hne] at hr
    simp at hr
  by_cases h3 : valores1.length < 3
  · rw [calcularCorrelacion, if_neg hne, if_pos h3] at hr
    simp at hr
  exact ⟨not_not.mp hne, h3⟩

lemma tipoCorrelacion_spec {valores1 valores2 : List ℝ} {tipoPrueba : String}
    {r : ResultadoCorrelacion}
    (hr : calcularCorrelacion valores1 valores2 tipoPrueba = Except.ok r) :
    r.normalidad1 = resultadoNormalidad valores1 ∧
    r.normalidad2 = resultadoNormalidad valores2 ∧
    (r.tipoCorrelacion = "Pearson" ↔ (r.normalidad1.normal ∧ r.normalidad2.normal)) ∧
    (r.tipoCorrelacion = "Spearman (Rho)" ↔ ¬ (r.normalidad1.normal ∧ r.normalidad2.normal)) := by
  obtain ⟨hlen, h3⟩ := calcularCorrelacion_ok_inv hr
  obtain ⟨r', hok, hn1, hn2, hP, hS⟩ := calcularCorrelacion_casos valores1 valores2 tipoPrueba hlen h3
  rw [hr] at hok
  obtain rfl : r = r' := Except.ok.inj hok
  by_cases hn : (resultadoNormalidad valores1).normal ∧ (resultadoNormalidad valores2).normal
  · obtain ⟨hT, -, -⟩ := hP hn
    refine ⟨hn1, hn2, ?_, ?_⟩
    · rw [hT, hn1, hn2]
      exact ⟨fun _ => hn, fun _ => rfl⟩
    · rw [hT, hn1, hn2]
      exact ⟨fun h => absurd h (by decide), fun h => absurd hn h⟩
  · obtain ⟨hT, -, -⟩ := hS hn
    refine ⟨hn1, hn2, ?_, ?_⟩
    · rw [hT, hn1, hn2]
      exact ⟨fun h => absurd h.symm (by decide), fun h => absurd h hn⟩
    · rw [hT, hn1, hn2]
      exact ⟨fun _ => hn, fun _ => rfl⟩

/-- C1: for every accepted pair of samples, the returned correlation type
is "Pearson" exactly when both normality results have `normal` true and
"Spearman (Rho)" otherwise; consequently the method choice depends only
on the two `normal` flags and on no other input. -/
theorem seleccion_metodo_correlacion :
    ∀ (valores1 valores2 : List ℝ) (tipoPrueba : String) (r : ResultadoCorrelacion),
      calcularCorrelacion valores1 valores2 tipoPrueba = Except.ok r →
      ((r.tipoCorrelacion = "Pearson" ↔ (r.normalidad1.normal ∧ r.normalidad2.normal)) ∧
       (r.tipoCorrelacion = "Spearman (Rho)" ↔
          ¬ (r.normalidad1.normal ∧ r.normalidad2.normal)) ∧
       (∀ (otros1 otros2 : List ℝ) (s : String) (r' : ResultadoCorrelacion),
         calcularCorrelacion otros1 otros2 s = Except.ok r' →
         (r.normalidad1.normal ↔ r'.normalidad1.normal) →
         (r.normalidad2.normal ↔ r'.normalidad2.normal) →
         r.tipoCorrelacion = r'.tipoCorrelacion)) := by
  intro valores1 valores2 tipoPrueba r hr
  obtain ⟨-, -, hP, hS⟩ := tipoCorrelacion_spec hr
  refine ⟨hP, hS, ?_⟩
  intro otros1 otros2 s r' hr' e1 e2
  obtain ⟨-, -, hP', hS'⟩ := tipoCorrelacion_spec hr'
  by_cases hn : r.normalidad1.normal ∧ r.normalidad2.normal
  · rw [hP.mpr hn]
    exact (hP'.mpr ⟨e1.mp hn.1, e2.mp hn.2⟩).symm
  · rw [hS.mpr hn]
    exact (hS'.mpr fun hc => hn ⟨e1.mpr hc.1, e2.mpr hc.2⟩).symm

/-- Witness for C1 at a concrete accepted input. -/
theorem seleccion_metodo_correlacion_witness :
    (((calcularCorrelacion [1, 2, 3] [1, 2, 3] "bilateral").toOption.getD
        default).tipoCorrelacion = "Pearson" ↔
      (((calcularCorrelacion [1, 2, 3] [1, 2, 3] "bilateral").toOption.getD
          default).normalidad1.normal ∧
        ((calcularCorrelacion [1, 2, 3] [1, 2, 3] "bilateral").toOption.getD
          default).normalidad2.normal)) := by
  obtain ⟨r, hok, -⟩ :=
    calcularCorrelacion_casos [1, 2, 3] [1, 2, 3] "bilateral" rfl (by simp)
  rw [hok]
  simpa [Except.toOption] using
    (seleccion_metodo_correlacion [1, 2, 3] [1, 2, 3] "bilateral" r hok).1

/-! Claim C8. -/

lemma sorted_getD_mono {l : List ℝ} (h : l.Sorted (· ≤ ·)) {i j : ℕ}
    (hij : i ≤ j) (hj : j < l.length) : l.getD i 0 ≤ l.getD j 0 := by
  rw [List.getD_eq_getElem l 0 (lt_of_le_of_lt hij hj), List.getD_eq_getElem l 0 hj]
  exact List.Sorted.rel_get_of_le h (by exact hij)

lemma interpolar_closed (ordenados : List ℝ) (x : ℝ) :
    interpolar ordenados x =
      ordenados.getD ⌊x⌋.toNat 0 * (1 - Int.fract x) +
        ordenados.getD ⌈x⌉.toNat 0 * Int.fract x := by
  simp only [interpolar]
  by_cases h : ⌊x⌋ = ⌈x⌉
  · have hf : Int.fract x = 0 := by
      have h1 := Int.floor_le x
      have h2 := Int.le_ceil x
      have hx : x = (⌊x⌋ : ℝ) := le_antisymm (h ▸ h2) h1
      rw [← Int.self_sub_floor, ← hx]
      linarith
    rw [if_pos h, hf, h]
    ring
  · rw [if_neg h]

lemma interpolar_indices {ordenados : List ℝ} {x : ℝ} (hx0 : 0 ≤ x)
    (hx1 : x ≤ (ordenados.length : ℝ) - 1) :
    (⌊x⌋.toNat : ℤ) = ⌊x⌋ ∧ (⌈x⌉.toNat : ℤ) = ⌈x⌉ ∧
    ⌊x⌋.toNat ≤ ⌈x⌉.toNat ∧ ⌈x⌉.toNat < ordenados.length := by
  have hlen : 1 ≤ ordenados.length := by
    by_contra h
    have h0 : ordenados.length = 0 := by omega
    rw [h0] at hx1
    norm_num at hx1
    linarith
  have hfl0 : 0 ≤ ⌊x⌋ := Int.floor_nonneg.mpr hx0
  have hflc := Int.floor_le_ceil x
  have hceil : ⌈x⌉ ≤ (ordenados.length : ℤ) - 1 := by
    rw [Int.ceil_le]
    push_cast
    linarith
  refine ⟨Int.toNat_of_nonneg hfl0, Int.toNat_of_nonneg (le_trans hfl0 hflc), ?_, ?_⟩ <;> omega

lemma interpolar_bounds {ordenados : List ℝ} (hs : ordenados.Sorted (· ≤ ·)) {x : ℝ}
    (hx0 : 0 ≤ x) (hx1 : x ≤ (ordenados.length : ℝ) - 1) :
    ordenados.getD ⌊x⌋.toNat 0 ≤ interpolar ordenados x ∧
      interpolar ordenados x ≤ ordenados.getD ⌈x⌉.toNat 0 := by
  obtain ⟨-, -, hij, hjlt⟩ := interpolar_indices hx0 hx1
  have hab := sorted_getD_mono hs hij hjlt
  have hw0 := Int.fract_nonneg x
  have hw1 := le_of_lt (Int.fract_lt_one x)
  rw [interpolar_closed]
  constructor <;>
    nlinarith [mul_nonneg hw0 (sub_nonneg.2 hab),
      mul_nonneg (sub_nonneg.2 hw1) (sub_nonneg.2 hab)]

lemma interpolar_mono {ordenados : List ℝ} (hs : ordenados.Sorted (· ≤ ·)) {x y : ℝ}
    (hx0 : 0 ≤ x) (hxy : x ≤ y) (hy1 : y ≤ (ordenados.length : ℝ) - 1) :
    interpolar ordenados x ≤ interpolar ordenados y := by
  have hy0 : 0 ≤ y := le_trans hx0 hxy
  have hx1 : x ≤ (ordenados.length : ℝ) - 1 := le_trans hxy hy1
  by_cases hc : ⌈x⌉ ≤ ⌊y⌋
  · have h1 := (interpolar_bounds hs hx0 hx1).2
    have h2 := (interpolar_bounds hs hy0 hy1).1
    obtain ⟨hflx, hclx, -, -⟩ := interpolar_indices hx0 hx1
    obtain ⟨hfly, hcly, hijy, hylt⟩ := interpolar_indices hy0 hy1
    have hmid : ordenados.getD ⌈x⌉.toNat 0 ≤ ordenados.getD ⌊y⌋.toNat 0 :=
      sorted_getD_mono hs (by omega) (by omega)
    linarith
  · push_neg at hc
    have hffle : ⌊x⌋ ≤ ⌊y⌋ := Int.floor_mono hxy
    have hcfl : ⌈x⌉ ≤ ⌊x⌋ + 1 := Int.ceil_le_floor_add_one x
    have hfx : ⌊x⌋ = ⌊y⌋ := by omega
    by_cases hyint : ⌈y⌉ = ⌊y⌋
    · have hy_eq : y = (⌊y⌋ : ℝ) := le_antisymm (hyint ▸ Int.le_ceil y) (Int.floor_le y)
      have hyx : y ≤ x := by
        rw [hy_eq, ← hfx]
        exact Int.floor_le x
      rw [le_antisymm hxy hyx]
    · have hcly := Int.ceil_le_floor_add_one y
      have hfcy := Int.floor_le_ceil y
      have hfcx := Int.floor_le_ceil x
      have hcy : ⌈y⌉ = ⌈x⌉ := by omega
      rw [interpolar_closed ordenados x, interpolar_closed ordenados y, ← hfx, ← hcy]
      have hw : Int.fract x ≤ Int.fract y := by
        rw [← Int.self_sub_floor, ← Int.self_sub_floor, ← hfx]
        linarith
      obtain ⟨-, -, hij, hjlt⟩ := interpolar_indices hx0 hx1
      have hab : ordenados.getD ⌊x⌋.toNat 0 ≤ ordenados.getD ⌈y⌉.toNat 0 := by
        rw [hcy]
        exact sorted_getD_mono hs hij hjlt
      nlinarith [mul_nonneg (sub_nonneg.2 hw) (sub_nonneg.2 hab)]

lemma descriptivas_min_eq (valores : List ℝ) :
    (descriptivas valores).min = (List.insertionSort (· ≤ ·) valores).getD 0 0 := rfl

lemma descriptivas_max_eq (valores : List ℝ) :
    (descriptivas valores).max =
      (List.insertionSort (· ≤ ·) valores).getD (valores.length - 1) 0 := rfl

lemma descriptivas_q1_eq (valores : List ℝ) :
    (descriptivas valores).q1 = calcularPercentil (List.insertionSort (· ≤ ·) valores) 25 := rfl

lemma descriptivas_q3_eq (valores : List ℝ) :
    (descriptivas valores).q3 = calcularPercentil (List.insertionSort (· ≤ ·) valores) 75 := rfl

lemma descriptivas_mediana_eq (valores : List ℝ) :
    (descriptivas valores).mediana =
      if valores.length % 2 = 0 then
        ((List.insertionSort (· ≤ ·) valores).getD (valores.length / 2 - 1) 0 +
          (List.insertionSort (· ≤ ·) valores).getD (valores.length / 2) 0) / 2
      else (List.insertionSort (· ≤ ·) valores).getD (valores.length / 2) 0 := rfl

lemma interpolar_zero (s : List ℝ) : interpolar s 0 = s.getD 0 0 := by
  simp [interpolar]

lemma interpolar_last (s : List ℝ) (h : s.length ≠ 0) :
    interpolar s ((s.length : ℝ) - 1) = s.getD (s.length - 1) 0 := by
  have h1 : 1 ≤ s.length := by omega
  have hcast : ((s.length : ℝ) - 1) = ((s.length - 1 : ℕ) : ℝ) := by
    rw [Nat.cast_sub h1]
    norm_num
  rw [hcast]
  simp [interpolar]

/-- The even/odd median split of `calcularDescriptivas` agrees with the
50th percentile of the generic interpolation. -/
lemma mediana_eq_interpolar (valores : List ℝ) (hne : valores.length ≠ 0) :
    (descriptivas valores).mediana =
      interpolar (List.insertionSort (· ≤ ·) valores)
        (50 / 100 * (((List.insertionSort (· ≤ ·) valores).length : ℝ) - 1)) := by
  have hlen : (List.insertionSort (· ≤ ·) valores).length = valores.length :=
    List.length_insertionSort _ valores
  rw [descriptivas_mediana_eq]
  rcases Nat.even_or_odd valores.length with he | ho
  · obtain ⟨k, hk⟩ := he
    have hk1 : 1 ≤ k := by omega
    have hidx : 50 / 100 * (((List.insertionSort (· ≤ ·) valores).length : ℝ) - 1)
        = (k : ℝ) - 1 / 2 := by
      rw [hlen, hk]
      push_cast
      ring
    have hfloor : ⌊(k : ℝ) - 1 / 2⌋ = (k : ℤ) - 1 := by
      rw [Int.floor_eq_iff]
      push_cast
      constructor <;> linarith
    have hceil : ⌈(k : ℝ) - 1 / 2⌉ = (k : ℤ) := by
      rw [Int.ceil_eq_iff]
      push_cast
      constructor <;> linarith
    have hfract : Int.fract ((k : ℝ) - 1 / 2) = 1 / 2 := by
      rw [← Int.self_sub_floor, hfloor]
      push_cast
      ring
    rw [hidx, interpolar_closed, hfloor, hceil, hfract,
      if_pos (by omega : valores.length % 2 = 0)]
    have h1 : ((k : ℤ) - 1).toNat = k - 1 := by omega
    have h2 : ((k : ℤ)).toNat = k := by omega
    have h3 : valores.length / 2 = k := by omega
    rw [h1, h2, h3]
    ring
  · obtain ⟨k, hk⟩ := ho
    have hidx : 50 / 100 * (((List.insertionSort (· ≤ ·) valores).length : ℝ) - 1)
        = ((k : ℕ) : ℝ) := by
      rw [hlen, hk]
      push_cast
      ring
    rw [hidx, interpolar_closed, Int.floor_natCast, Int.ceil_natCast, Int.fract_natCast,
      if_neg (by omega : ¬ valores.length % 2 = 0)]
    have h2 : ((k : ℕ) : ℤ).toNat = k := by omega
    have h3 : valores.length / 2 = k := by omega
    rw [h2, h3]
    ring

/-- C8: for every non-empty sample the descriptive statistics satisfy
`q1 ≤ median ≤ q3`, `min ≤ q1` and `q3 ≤ max` (quartiles by linear
interpolation between order statistics, the median by the even/odd
midpoint split). -/
theorem descriptivas_cuartiles_ordenados :
    ∀ (valores : List ℝ) (d : EstadisticasDescriptivas),
      calcularDescriptivas valores = Except.ok d →
      d.q1 ≤ d.mediana ∧ d.mediana ≤ d.q3 ∧ d.min ≤ d.q1 ∧ d.q3 ≤ d.max := by
  intro valores d hd
  obtain ⟨h0, rfl⟩ := calcularDescriptivas_ok_inv hd
  have hsorted : (List.insertionSort (· ≤ ·) valores).Sorted (· ≤ ·) :=
    List.sorted_insertionSort _ valores
  have hlen : (List.insertionSort (· ≤ ·) valores).length = valores.length :=
    List.length_insertionSort _ valores
  set s := List.insertionSort (· ≤ ·) valores with hs
  have hm1 : (0 : ℝ) ≤ (s.length : ℝ) - 1 := by
    have : (1 : ℝ) ≤ (s.length : ℝ) := by
      have : 1 ≤ s.length := by omega
      exact_mod_cast this
    linarith
  have hmed := mediana_eq_interpolar valores h0
  have hq1 : (descriptivas valores).q1 = interpolar s (25 / 100 * ((s.length : ℝ) - 1)) := rfl
  have hq3 : (descriptivas valores).q3 = interpolar s (75 / 100 * ((s.length : ℝ) - 1)) := rfl
  refine ⟨?_, ?_, ?_, ?_⟩
  · rw [hq1, hmed]
    exact interpolar_mono hsorted (by nlinarith) (by nlinarith) (by nlinarith)
  · rw [hq3, hmed]
    exact interpolar_mono hsorted (by nlinarith) (by nlinarith) (by nlinarith)
  · rw [hq1, descriptivas_min_eq, ← interpolar_zero s]
    exact interpolar_mono hsorted le_rfl (by nlinarith) (by nlinarith)
  · rw [hq3, descriptivas_max_eq]
    have hlast := interpolar_last s (by omega)
    rw [show valores.length - 1 = s.length - 1 by omega, ← hlast]
    exact interpolar_mono hsorted (by nlinarith) (by nlinarith) le_rfl

/-- Witness for C8 at the concrete sample [3, 1, 2]. -/
theorem descriptivas_cuartiles_ordenados_witness :
    (descriptivas [3, 1, 2]).q1 ≤ (descriptivas [3, 1, 2]).mediana ∧
      (descriptivas [3, 1, 2]).mediana ≤ (descriptivas [3, 1, 2]).q3 ∧
      (descriptivas [3, 1, 2]).min ≤ (descriptivas [3, 1, 2]).q1 ∧
      (descriptivas [3, 1, 2]).q3 ≤ (descriptivas [3, 1, 2]).max :=
  descriptivas_cuartiles_ordenados [3, 1, 2] _
    (by rw [calcularDescriptivas, if_neg (by simp)])

/-! Claim C6. -/

section RangosLemas

variable {α : Type} [LinearOrderedField α]

instance : DecidableRel (fun (a b : α × ℕ) => a.1 ≤ b.1) :=
  fun a b => inferInstanceAs (Decidable (a.1 ≤ b.1))

instance : IsTotal (α × ℕ) (fun a b => a.1 ≤ b.1) := ⟨fun a b => le_total a.1 b.1⟩

instance : IsTrans (α × ℕ) (fun a b => a.1 ≤ b.1) :=
  ⟨fun _ _ _ hab hbc => le_trans hab hbc⟩

lemma convertirARangos_length (valores : List α) :
    (convertirARangos valores).length = valores.length := by
  simp [convertirARangos]

/-- Every element surviving `dropWhile (· = c)` of a fst-sorted pair list
whose values all dominate `c` is strictly larger than `c`. -/
lemma mem_dropWhile_gt (c : α) (l : List (α × ℕ))
    (hsort : l.Sorted (fun a b => a.1 ≤ b.1)) (hge : ∀ r ∈ l, c ≤ r.1) :
    ∀ r ∈ l.dropWhile (fun q => decide (q.1 = c)), c < r.1 := by
  have hsd : (l.dropWhile (fun q => decide (q.1 = c))).Sorted (fun a b => a.1 ≤ b.1) :=
    hsort.sublist (List.dropWhile_sublist _)
  intro r hr
  rcases hd : l.dropWhile (fun q => decide (q.1 = c)) with - | ⟨h0, t0⟩
  · rw [hd] at hr
    simp at hr
  · have hne : ¬ h0.1 = c := by
      have h1 := List.head_dropWhile_not (fun q => decide (q.1 = c)) l (by rw [hd]; simp)
      simp only [hd, List.head_cons] at h1
      simpa using h1
    have hh0 : h0 ∈ l.dropWhile (fun q => decide (q.1 = c)) := by
      rw [hd]
      exact List.mem_cons_self _ _
    have hle : c ≤ h0.1 := hge h0 ((List.dropWhile_sublist _).subset hh0)
    have hlt : c < h0.1 := lt_of_le_of_ne hle (Ne.symm hne)
    rw [hd] at hr hsd
    rcases List.mem_cons.mp hr with rfl | hr'
    · exact hlt
    · exact lt_of_lt_of_le hlt (List.rel_of_sorted_cons hsd r hr')

/-- The original indices recorded by `asignarRangos` are exactly the
indices of its input, in order. -/
lemma asignarRangos_keys : ∀ (l : List (α × ℕ)) (i : ℕ),
    (asignarRangos i l).map Prod.fst = l.map Prod.snd
  | [], i => by simp [asignarRangos]
  | p :: resto, i => by
    have ih := asignarRangos_keys (resto.dropWhile (fun q => decide (q.1 = p.1)))
      (i + 1 + (resto.takeWhile (fun q => decide (q.1 = p.1))).length)
    simp only [asignarRangos, List.map_cons, List.map_append, List.map_map, ih]
    conv_rhs => rw [← List.takeWhile_append_dropWhile (fun q => decide (q.1 = p.1)) resto,
      List.map_append]
    rfl
termination_by l i => l.length
decreasing_by
  simp only [List.length_cons]
  exact Nat.lt_succ_of_le (List.dropWhile_sublist _).length_le

/-- `List.lookup` retrieves the unique binding of a key from an
association list with distinct keys. -/
lemma lookup_eq_of_mem_of_nodup {β : Type} :
    ∀ (l : List (ℕ × β)) (k : ℕ) (r : β), (l.map Prod.fst).Nodup → (k, r) ∈ l →
      l.lookup k = some r := by
  intro l
  induction l with
  | nil => intro k r _ hm; simp at hm
  | cons p tl ih =>
    intro k r hnd hm
    rcases List.mem_cons.mp hm with heq | hm'
    · rw [← heq]
      simp [List.lookup]
    · have hk : ¬ p.1 = k := by
        intro he
        have hmem : k ∈ tl.map Prod.fst := List.mem_map.mpr ⟨(k, r), hm', rfl⟩
        rw [List.map_cons] at hnd
        exact (List.nodup_cons.mp hnd).1 (he ▸ hmem)
      have htl : (tl.map Prod.fst).Nodup := by
        rw [List.map_cons] at hnd
        exact (List.nodup_cons.mp hnd).2
      have hk2 : (k == p.1) = false := by
        simp only [beq_eq_false_iff_ne, ne_eq]
        exact fun he => hk he.symm
      simp only [List.lookup, hk2]
      exact ih k r htl hm'

/-- Core invariant of the tie-grouping walk: in a fst-sorted list, the
element with original index `q.2` is assigned the rank
`(i + #(< q.1) + 1 + i + #(≤ q.1)) / 2`, the tie-group average offset by
the current position `i`. -/
lemma asignarRangos_mem : ∀ (l : List (α × ℕ)) (i : ℕ),
    l.Sorted (fun a b => a.1 ≤ b.1) → ∀ q : α × ℕ, q ∈ l →
    (q.2, (((i + l.countP (fun r => decide (r.1 < q.1)) : ℕ) : α) + 1 +
      ((i + l.countP (fun r => decide (r.1 ≤ q.1)) : ℕ) : α)) / 2) ∈ asignarRangos i l
  | [], _, _, q, hq => by simp at hq
  | p :: resto, i, hsort, q, hq => by
    have hresto_le := List.rel_of_sorted_cons hsort
    have hsort_resto : resto.Sorted (fun a b => a.1 ≤ b.1) := hsort.of_cons
    have hgt := mem_dropWhile_gt p.1 resto hsort_resto hresto_le
    have hemp_eq : ∀ r ∈ resto.takeWhile (fun r => decide (r.1 = p.1)), r.1 = p.1 := by
      intro r hr
      simpa using List.mem_takeWhile_imp hr
    have hsplit := List.takeWhile_append_dropWhile (fun r => decide (r.1 = p.1)) resto
    by_cases hqgrp : q.1 = p.1
    · have hc1 : (p :: resto).countP (fun r => decide (r.1 < q.1)) = 0 := by
        rw [List.countP_eq_zero]
        intro r hr
        simp only [decide_eq_true_eq, not_lt]
        rcases List.mem_cons.mp hr with rfl | hr'
        · rw [hqgrp]
        · exact hqgrp ▸ hresto_le r hr'
      have hc2 : (p :: resto).countP (fun r => decide (r.1 ≤ q.1)) =
          1 + (resto.takeWhile (fun r => decide (r.1 = p.1))).length := by
        rw [List.countP_cons_of_pos _ _ (by simp [hqgrp])]
        conv_lhs => rw [← hsplit]
        rw [List.countP_append]
        have h1 : (resto.takeWhile (fun r => decide (r.1 = p.1))).countP
            (fun r => decide (r.1 ≤ q.1)) =
            (resto.takeWhile (fun r => decide (r.1 = p.1))).length := by
          rw [List.countP_eq_length]
          intro r hr
          simp [hemp_eq r hr, hqgrp]
        have h2 : (resto.dropWhile (fun r => decide (r.1 = p.1))).countP
            (fun r => decide (r.1 ≤ q.1)) = 0 := by
          rw [List.countP_eq_zero]
          intro r hr
          simp only [decide_eq_true_eq, not_le]
          exact hqgrp ▸ hgt r hr
        rw [h1, h2]
        omega
      rw [hc1, hc2]
      simp only [asignarRangos]
      have hval : (((i + 0 : ℕ) : α) + 1 +
          ((i + (1 + (resto.takeWhile (fun r => decide (r.1 = p.1))).length) : ℕ) : α)) / 2 =
          ((i : α) + 1 +
            ((i + 1 + (resto.takeWhile (fun r => decide (r.1 = p.1))).length : ℕ) : α)) / 2 := by
        push_cast
        ring
      rw [hval]
      rcases List.mem_cons.mp hq with rfl | hq'
      · exact List.mem_cons_self _ _
      · have hq'' : q ∈ resto.takeWhile (fun r => decide (r.1 = p.1)) := by
          have hq2 : q ∈ resto.takeWhile (fun r => decide (r.1 = p.1)) ++
              resto.dropWhile (fun r => decide (r.1 = p.1)) := by
            rw [hsplit]
            exact hq'
          rcases List.mem_append.mp hq2 with h | h
          · exact h
          · exact absurd (hgt q h) (by rw [hqgrp]; exact lt_irrefl _)
        exact List.mem_cons_of_mem _
          (List.mem_append_left _ (List.mem_map.mpr ⟨q, hq'', rfl⟩))
    · have hqresto : q ∈ resto := by
        rcases List.mem_cons.mp hq with rfl | h
        · exact absurd rfl hqgrp
        · exact h
      have hqin : q ∈ resto.dropWhile (fun r => decide (r.1 = p.1)) := by
        have hq2 : q ∈ resto.takeWhile (fun r => decide (r.1 = p.1)) ++
            resto.dropWhile (fun r => decide (r.1 = p.1)) := by
          rw [hsplit]
          exact hqresto
        rcases List.mem_append.mp hq2 with h | h
        · exact absurd (hemp_eq q h) hqgrp
        · exact h
      have hpq : p.1 < q.1 := hgt q hqin
      have ih := asignarRangos_mem (resto.dropWhile (fun r => decide (r.1 = p.1)))
        (i + 1 + (resto.takeWhile (fun r => decide (r.1 = p.1))).length)
        (hsort_resto.sublist (List.dropWhile_sublist _)) q hqin
      have hemp_lt : (resto.takeWhile (fun r => decide (r.1 = p.1))).countP
          (fun r => decide (r.1 < q.1)) =
          (resto.takeWhile (fun r => decide (r.1 = p.1))).length := by
        rw [List.countP_eq_length]
        intro r hr
        simp [hemp_eq r hr, hpq]
      have hemp_le : (resto.takeWhile (fun r => decide (r.1 = p.1))).countP
          (fun r => decide (r.1 ≤ q.1)) =
          (resto.takeWhile (fun r => decide (r.1 = p.1))).length := by
        rw [List.countP_eq_length]
        intro r hr
        simp [hemp_eq r hr, le_of_lt hpq]
      have hc1 : (p :: resto).countP (fun r => decide (r.1 < q.1)) =
          1 + (resto.takeWhile (fun r => decide (r.1 = p.1))).length +
            (resto.dropWhile (fun r => decide (r.1 = p.1))).countP
              (fun r => decide (r.1 < q.1)) := by
        rw [List.countP_cons_of_pos _ _ (by simp [hpq])]
        conv_lhs => rw [← hsplit]
        rw [List.countP_append, hemp_lt]
        omega
      have hc2 : (p :: resto).countP (fun r => decide (r.1 ≤ q.1)) =
          1 + (resto.takeWhile (fun r => decide (r.1 = p.1))).length +
            (resto.dropWhile (fun r => decide (r.1 = p.1))).countP
              (fun r => decide (r.1 ≤ q.1)) := by
        rw [List.countP_cons_of_pos _ _ (by simp [le_of_lt hpq])]
        conv_lhs => rw [← hsplit]
        rw [List.countP_append, hemp_le]
        omega
      have hn1 : i + (p :: resto).countP (fun r => decide (r.1 < q.1)) =
          (i + 1 + (resto.takeWhile (fun r => decide (r.1 = p.1))).length) +
            (resto.dropWhile (fun r => decide (r.1 = p.1))).countP
              (fun r => decide (r.1 < q.1)) := by
        omega
      have hn2 : i + (p :: resto).countP (fun r => decide (r.1 ≤ q.1)) =
          (i + 1 + (resto.takeWhile (fun r => decide (r.1 = p.1))).length) +
            (resto.dropWhile (fun r => decide (r.1 = p.1))).countP
              (fun r => decide (r.1 ≤ q.1)) := by
        omega
      rw [hn1, hn2]
      simp only [asignarRangos]
      exact List.mem_cons_of_mem _ (List.mem_append_right _ ih)
termination_by l i => l.length
decreasing_by
  simp only [List.length_cons]
  exact Nat.lt_succ_of_le (List.dropWhile_sublist _).length_le

/-- The rank assigned at position `k` is characterised by the
strict/weak counts of values below the value at `k`. -/
lemma convertirARangos_getD (valores : List α) (k : ℕ) (hk : k < valores.length) :
    (convertirARangos valores).getD k 0 =
      ((valores.countP (fun a => decide (a < valores.getD k 0)) : α) + 1 +
        (valores.countP (fun a => decide (a ≤ valores.getD k 0)) : α)) / 2 := by
  have hlr : valores.length ≤ (List.range valores.length).length := by simp
  have hperm : (List.insertionSort (fun (a b : α × ℕ) => a.1 ≤ b.1)
      (valores.zip (List.range valores.length))).Perm
      (valores.zip (List.range valores.length)) := List.perm_insertionSort _ _
  have hsorted := List.sorted_insertionSort (fun (a b : α × ℕ) => a.1 ≤ b.1)
      (valores.zip (List.range valores.length))
  have hkz : k < (valores.zip (List.range valores.length)).length := by
    simp only [List.length_zip, List.length_range]
    omega
  have hget : (valores.zip (List.range valores.length))[k] = (valores[k], k) := by
    rw [List.getElem_zip, List.getElem_range]
  have hgd : valores.getD k 0 = valores[k] := List.getD_eq_getElem valores 0 hk
  have hmemzip : (valores[k], k) ∈ valores.zip (List.range valores.length) := by
    rw [← hget]
    exact List.getElem_mem hkz
  have hmemS : (valores[k], k) ∈ List.insertionSort (fun (a b : α × ℕ) => a.1 ≤ b.1)
      (valores.zip (List.range valores.length)) := hperm.mem_iff.mpr hmemzip
  have hmain := asignarRangos_mem _ 0 hsorted (valores[k], k) hmemS
  have hcount : ∀ p : α → Bool,
      (List.insertionSort (fun (a b : α × ℕ) => a.1 ≤ b.1)
        (valores.zip (List.range valores.length))).countP (fun r => p r.1) =
      valores.countP p := by
    intro p
    rw [List.Perm.countP_eq _ hperm]
    calc (valores.zip (List.range valores.length)).countP (fun r => p r.1)
        = ((valores.zip (List.range valores.length)).map Prod.fst).countP p := by
          rw [List.countP_map]
          rfl
      _ = valores.countP p := by rw [List.map_fst_zip _ _ hlr]
  have hkeys := asignarRangos_keys (List.insertionSort (fun (a b : α × ℕ) => a.1 ≤ b.1)
      (valores.zip (List.range valores.length))) 0
  have hnodup : ((asignarRangos 0 (List.insertionSort (fun (a b : α × ℕ) => a.1 ≤ b.1)
      (valores.zip (List.range valores.length)))).map Prod.fst).Nodup := by
    rw [hkeys]
    rw [(hperm.map Prod.snd).nodup_iff]
    rw [List.map_snd_zip _ _ (by simp)]
    exact List.nodup_range _
  have hlook := lookup_eq_of_mem_of_nodup _ k _ hnodup hmain
  have hcg : (convertirARangos valores).getD k 0 =
      ((asignarRangos 0 (List.insertionSort (fun (a b : α × ℕ) => a.1 ≤ b.1)
        (valores.zip (List.range valores.length)))).lookup k).getD 0 := by
    simp only [convertirARangos]
    rw [List.getD_eq_getElem _ _ (by simpa using hk), List.getElem_map, List.getElem_range]
  rw [hcg, hlook, Option.getD_some, hgd,
    ← hcount (fun a => decide (a < valores[k])), ← hcount (fun a => decide (a ≤ valores[k]))]
  push_cast
  ring

end RangosLemas

/-- C6: `convertirARangos` assigns to every member of a tie group of
exactly equal values the average of the 1-based rank positions that
group occupies (position `k` receives
`(#strictly-below + 1 + #weakly-below) / 2`), with ranks returned in the
positions of the original input; in particular on `[10, 20, 20, 30]` it
yields `[1, 2.5, 2.5, 4]`. -/
theorem rangos_empate_promedio :
    (∀ (α : Type) [LinearOrderedField α], ∀ valores : List α,
      (convertirARangos valores).length = valores.length ∧
      (∀ k, k < valores.length →
        (convertirARangos valores).getD k 0 =
          ((valores.countP (fun a => decide (a < valores.getD k 0)) : α) + 1 +
            (valores.countP (fun a => decide (a ≤ valores.getD k 0)) : α)) / 2)) ∧
    convertirARangos ([10, 20, 20, 30] : List ℚ) = [1, 2.5, 2.5, 4] := by
  constructor
  · intro α inst valores
    exact ⟨convertirARangos_length valores, fun k hk => convertirARangos_getD valores k hk⟩
  · have hlen : (convertirARangos ([10, 20, 20, 30] : List ℚ)).length = 4 := by
      rw [convertirARangos_length]
      rfl
    apply List.ext_getElem (by rw [hlen]; rfl)
    intro n h1 h2
    have hn : n < 4 := by rw [hlen] at h1; exact h1
    have hgd : (convertirARangos ([10, 20, 20, 30] : List ℚ))[n] =
        (convertirARangos ([10, 20, 20, 30] : List ℚ)).getD n 0 :=
      (List.getD_eq_getElem _ _ h1).symm
    rw [hgd, convertirARangos_getD ([10, 20, 20, 30] : List ℚ) n (by simpa using hn)]
    interval_cases n <;>
      norm_num [List.countP_cons, List.countP_nil, List.getD, List.getElem?_cons]

/-- Witness for C6 at an unsorted concrete input: position 0 of
`[30, 10, 20, 20]` receives rank `(3 + 1 + 4)/2 = 4`. -/
theorem rangos_empate_promedio_witness :
    (convertirARangos ([30, 10, 20, 20] : List ℚ)).getD 0 0 =
      ((([30, 10, 20, 20] : List ℚ).countP
          (fun a => decide (a < ([30, 10, 20, 20] : List ℚ).getD 0 0)) : ℚ) + 1 +
        (([30, 10, 20, 20] : List ℚ).countP
          (fun a => decide (a ≤ ([30, 10, 20, 20] : List ℚ).getD 0 0)) : ℚ)) / 2 :=
  ((rangos_empate_promedio.1 ℚ [30, 10, 20, 20]).2 0 (by norm_num))

/-! Claim C5. -/

lemma sum_map_getD (l : List ℝ) (f : ℝ → ℝ) :
    (l.map f).sum = ∑ i ∈ Finset.range l.length, f (l.getD i 0) := by
  induction l with
  | nil => simp
  | cons a t ih =>
    simp only [List.map_cons, List.sum_cons, List.length_cons, Finset.sum_range_succ',
      List.getD_cons_succ, List.getD_cons_zero, ih]
    ring

lemma descriptivas_varianza_nonneg (valores : List ℝ) : 0 ≤ (descriptivas valores).varianza := by
  rw [descriptivas_varianza]
  split_ifs with h1
  · apply div_nonneg
    · apply List.sum_nonneg
      intro y hy
      obtain ⟨x, -, rfl⟩ := List.mem_map.mp hy
      positivity
    · have : (1 : ℝ) < (valores.length : ℝ) := by exact_mod_cast h1
      linarith
  · exact le_rfl

lemma correlacionPearson_coeficiente (valores1 valores2 : List ℝ) (tipoPrueba : String) :
    (correlacionPearson valores1 valores2 tipoPrueba).coeficiente =
      if 0 < (descriptivas valores1).desviacion ∧ 0 < (descriptivas valores2).desviacion
      then (∑ i ∈ Finset.range valores1.length,
          (valores1.getD i 0 - (descriptivas valores1).media) *
            (valores2.getD i 0 - (descriptivas valores2).media)) / ((valores1.length : ℝ) - 1) /
        ((descriptivas valores1).desviacion * (descriptivas valores2).desviacion)
      else 0 := rfl

lemma correlacionPearson_pValor_eq (valores1 valores2 : List ℝ) (tipoPrueba : String) :
    (correlacionPearson valores1 valores2 tipoPrueba).pValor =
      calcularPValorPearson (correlacionPearson valores1 valores2 tipoPrueba).coeficiente
        valores1.length tipoPrueba := rfl

lemma descriptivas_desviacion_sq {valores : List ℝ} (h2 : 2 ≤ valores.length) :
    (descriptivas valores).desviacion ^ 2 =
      (∑ i ∈ Finset.range valores.length,
        (valores.getD i 0 - (descriptivas valores).media) ^ 2) / ((valores.length : ℝ) - 1) := by
  rw [descriptivas_desviacion, Real.sq_sqrt (descriptivas_varianza_nonneg valores),
    descriptivas_varianza, if_pos (show 1 < valores.length by omega), sum_map_getD,
    descriptivas_media]

/-- Cauchy-Schwarz for the sample covariance: on equal-length samples
the Pearson coefficient computed by `correlacionPearson` lies in
[-1, 1]. -/
lemma correlacionPearson_coef_abs_le (valores1 valores2 : List ℝ) (tipoPrueba : String)
    (hlen : valores2.length = valores1.length) (h2 : 2 ≤ valores1.length) :
    |(correlacionPearson valores1 valores2 tipoPrueba).coeficiente| ≤ 1 := by
  rw [correlacionPearson_coeficiente]
  by_cases hd : 0 < (descriptivas valores1).desviacion ∧ 0 < (descriptivas valores2).desviacion
  case neg =>
    rw [if_neg hd]
    simp
  case pos =>
  rw [if_pos hd]
  have hn1 : (0 : ℝ) < (valores1.length : ℝ) - 1 := by
    have : (2 : ℝ) ≤ (valores1.length : ℝ) := by exact_mod_cast h2
    linarith
  have hd1sq := @descriptivas_desviacion_sq valores1 h2
  have hd2sq : (descriptivas valores2).desviacion ^ 2 =
      (∑ i ∈ Finset.range valores1.length,
        (valores2.getD i 0 - (descriptivas valores2).media) ^ 2) /
        ((valores1.length : ℝ) - 1) := by
    have := @descriptivas_desviacion_sq valores2 (by omega)
    rw [hlen] at this
    exact this
  have hCS := Finset.sum_mul_sq_le_sq_mul_sq (Finset.range valores1.length)
    (fun i => valores1.getD i 0 - (descriptivas valores1).media)
    (fun i => valores2.getD i 0 - (descriptivas valores2).media)
  have hS1pos : 0 < ∑ i ∈ Finset.range valores1.length,
      (valores1.getD i 0 - (descriptivas valores1).media) ^ 2 := by
    have hq : 0 < (descriptivas valores1).desviacion ^ 2 := pow_pos hd.1 2
    rw [hd1sq] at hq
    rcases div_pos_iff.mp hq with ⟨h, -⟩ | ⟨-, h⟩
    · exact h
    · linarith
  have hS2pos : 0 < ∑ i ∈ Finset.range valores1.length,
      (valores2.getD i 0 - (descriptivas valores2).media) ^ 2 := by
    have hq : 0 < (descriptivas valores2).desviacion ^ 2 := pow_pos hd.2 2
    rw [hd2sq] at hq
    rcases div_pos_iff.mp hq with ⟨h, -⟩ | ⟨-, h⟩
    · exact h
    · linarith
  apply (sq_le_one_iff_abs_le_one _).mp
  have aux : ∀ S12 S1 S2 m d1 d2 : ℝ, 0 < m → d1 ^ 2 = S1 / m → d2 ^ 2 = S2 / m →
      0 < S1 → 0 < S2 → (S12 / m / (d1 * d2)) ^ 2 = S12 ^ 2 / (S1 * S2) := by
    intro S12 S1 S2 m d1 d2 hm h1 h2 hS1 hS2
    rw [div_pow, div_pow, mul_pow, h1, h2]
    field_simp
    ring
  rw [aux _ _ _ _ _ _ hn1 hd1sq hd2sq hS1pos hS2pos]
  exact (div_le_one (mul_pos hS1pos hS2pos)).mpr hCS

lemma betaSerie_nonneg {a b x : ℝ} (ha : 0 ≤ a) (hb : 0 ≤ b) (hx : 0 ≤ x) :
    ∀ (fuel i : ℕ) (termino suma : ℝ), 0 ≤ termino → 0 ≤ suma →
      0 ≤ betaSerie a b x i fuel termino suma := by
  intro fuel
  induction fuel with
  | zero =>
    intro i termino suma _ hs
    simpa [betaSerie] using hs
  | succ fuel ih =>
    intro i termino suma ht hs
    simp only [betaSerie]
    have ht' : 0 ≤ termino * ((a + i) / (a + b + i) * x) := by
      apply mul_nonneg ht
      apply mul_nonneg _ hx
      apply div_nonneg <;> positivity
    have hs' : 0 ≤ suma + termino * ((a + i) / (a + b + i) * x) / (a + i + 1) := by
      apply add_nonneg hs
      apply div_nonneg ht'
      positivity
    split_ifs
    · exact hs'
    · exact ih (i + 1) _ _ ht' hs'

lemma betaIncompleta_nonneg (x a b : ℝ) (ha : 0 < a) (hb : 0 ≤ b) :
    0 ≤ betaIncompleta x a b := by
  rw [betaIncompleta]
  split_ifs with h1 h2
  · exact le_rfl
  · norm_num
  · push_neg at h1
    apply mul_nonneg
    · exact div_nonneg (Real.exp_pos _).le ha.le
    · exact betaSerie_nonneg ha.le hb h1.le 100 0 1 1 zero_le_one zero_le_one

lemma calcularPValorT_nonneg (t gl : ℝ) (hgl : 0 < gl) : 0 ≤ calcularPValorT t gl := by
  unfold calcularPValorT
  exact betaIncompleta_nonneg _ _ _ (half_pos hgl) (by norm_num)

lemma calcularPValorPearson_mem (r : ℝ) (n : ℕ) (tipoPrueba : String) (h3 : 3 ≤ n) :
    0 ≤ calcularPValorPearson r n tipoPrueba ∧ calcularPValorPearson r n tipoPrueba ≤ 1 := by
  have hgl : (0 : ℝ) < (n : ℝ) - 2 := by
    have : (3 : ℝ) ≤ (n : ℝ) := by exact_mod_cast h3
    linarith
  have hT := calcularPValorT_nonneg |r * Real.sqrt (((n : ℝ) - 2) / (1 - r * r))| ((n : ℝ) - 2) hgl
  rw [calcularPValorPearson]
  split_ifs with h1 h2 hbil
  · norm_num
  · norm_num
  · exact ⟨le_min (by norm_num) (by linarith), min_le_left _ _⟩
  · exact ⟨le_min (by norm_num) hT, min_le_left _ _⟩

lemma poly_cdf_nonneg (t : ℝ) :
    0 ≤ 0.3193815 + t * (-0.3565638 + t * (1.781478 + t * (-1.821256 + t * 1.330274))) := by
  nlinarith [sq_nonneg t, sq_nonneg (1 - t), sq_nonneg (t - 0.11), sq_nonneg (t * t - 0.3)]

lemma distribucionNormalAcumulada_le_one {z : ℝ} (hz : 0 ≤ z) :
    distribucionNormalAcumulada z ≤ 1 := by
  rw [distribucionNormalAcumulada]
  rcases eq_or_lt_of_le hz with rfl | hz'
  · rw [if_neg (lt_irrefl 0)]
    norm_num [Real.exp_zero]
  · rw [if_pos hz']
    have ht0 : (0 : ℝ) ≤ 1 / (1 + 0.2316419 * |z|) := by positivity
    have hd0 : (0 : ℝ) ≤ 0.3989423 * Real.exp (-z * z / 2) := by positivity
    nlinarith [mul_nonneg (mul_nonneg hd0 ht0) (poly_cdf_nonneg (1 / (1 + 0.2316419 * |z|)))]

lemma calcularPValorSpearman_mem (rho : ℝ) (n : ℕ) (tipoPrueba : String) (h3 : 3 ≤ n) :
    0 ≤ calcularPValorSpearman rho n tipoPrueba ∧ calcularPValorSpearman rho n tipoPrueba ≤ 1 := by
  rw [calcularPValorSpearman]
  split_ifs with h10 hbil
  · have hcdf := distribucionNormalAcumulada_le_one (abs_nonneg (rho * Real.sqrt ((n : ℝ) - 1)))
    exact ⟨le_min (by norm_num) (by nlinarith), min_le_left _ _⟩
  · have hcdf := distribucionNormalAcumulada_le_one (abs_nonneg (rho * Real.sqrt ((n : ℝ) - 1)))
    exact ⟨le_min (by norm_num) (by nlinarith), min_le_left _ _⟩
  · exact calcularPValorPearson_mem rho n tipoPrueba h3

lemma correlacionSpearman_coeficiente (valores1 valores2 : List ℝ) (tipoPrueba : String) :
    (correlacionSpearman valores1 valores2 tipoPrueba).coeficiente =
      (correlacionPearson (convertirARangos valores1) (convertirARangos valores2)
        tipoPrueba).coeficiente := rfl

lemma correlacionSpearman_pValor_eq (valores1 valores2 : List ℝ) (tipoPrueba : String) :
    (correlacionSpearman valores1 valores2 tipoPrueba).pValor =
      calcularPValorSpearman
        (correlacionPearson (convertirARangos valores1) (convertirARangos valores2)
          tipoPrueba).coeficiente valores1.length tipoPrueba := rfl

lemma correlacionPearson_mem (valores1 valores2 : List ℝ) (tipoPrueba : String)
    (hlen : valores2.length = valores1.length) (h3 : 3 ≤ valores1.length) :
    (-1 ≤ (correlacionPearson valores1 valores2 tipoPrueba).coeficiente ∧
      (correlacionPearson valores1 valores2 tipoPrueba).coeficiente ≤ 1) ∧
    (0 ≤ (correlacionPearson valores1 valores2 tipoPrueba).pValor ∧
      (correlacionPearson valores1 valores2 tipoPrueba).pValor ≤ 1) := by
  refine ⟨abs_le.mp (correlacionPearson_coef_abs_le valores1 valores2 tipoPrueba hlen
    (by omega)), ?_⟩
  rw [correlacionPearson_pValor_eq]
  exact calcularPValorPearson_mem _ _ _ h3

lemma correlacionSpearman_mem (valores1 valores2 : List ℝ) (tipoPrueba : String)
    (hlen : valores2.length = valores1.length) (h3 : 3 ≤ valores1.length) :
    (-1 ≤ (correlacionSpearman valores1 valores2 tipoPrueba).coeficiente ∧
      (correlacionSpearman valores1 valores2 tipoPrueba).coeficiente ≤ 1) ∧
    (0 ≤ (correlacionSpearman valores1 valores2 tipoPrueba).pValor ∧
      (correlacionSpearman valores1 valores2 tipoPrueba).pValor ≤ 1) := by
  have hlr : (convertirARangos valores2).length = (convertirARangos valores1).length := by
    rw [convertirARangos_length, convertirARangos_length, hlen]
  have h2r : 2 ≤ (convertirARangos valores1).length := by
    rw [convertirARangos_length]
    omega
  constructor
  · rw [correlacionSpearman_coeficiente]
    exact abs_le.mp (correlacionPearson_coef_abs_le _ _ tipoPrueba hlr h2r)
  · rw [correlacionSpearman_pValor_eq]
    exact calcularPValorSpearman_mem _ _ _ h3

/-- C5: every correlation result returned by `calcularCorrelacion` (for
either test sidedness, on the Pearson as well as the Spearman path,
degenerate cases included) has its coefficient in [-1, 1] and its
p-value in [0, 1]. -/
theorem correlacion_acotada :
    ∀ (valores1 valores2 : List ℝ) (tipoPrueba : String) (r : ResultadoCorrelacion),
      calcularCorrelacion valores1 valores2 tipoPrueba = Except.ok r →
      -1 ≤ r.coeficiente ∧ r.coeficiente ≤ 1 ∧ 0 ≤ r.pValor ∧ r.pValor ≤ 1 := by
  intro valores1 valores2 tipoPrueba r hr
  obtain ⟨hlen, h3⟩ := calcularCorrelacion_ok_inv hr
  obtain ⟨r', hok, -, -, hP, hS⟩ := calcularCorrelacion_casos valores1 valores2 tipoPrueba hlen h3
  rw [hr] at hok
  obtain rfl : r = r' := Except.ok.inj hok
  by_cases hn : (resultadoNormalidad valores1).normal ∧ (resultadoNormalidad valores2).normal
  · obtain ⟨-, hc, hp⟩ := hP hn
    rw [hc, hp]
    have h := correlacionPearson_mem valores1 valores2 tipoPrueba hlen.symm (by omega)
    exact ⟨h.1.1, h.1.2, h.2.1, h.2.2⟩
  · obtain ⟨-, hc, hp⟩ := hS hn
    rw [hc, hp]
    have h := correlacionSpearman_mem valores1 valores2 tipoPrueba hlen.symm (by omega)
    exact ⟨h.1.1, h.1.2, h.2.1, h.2.2⟩

/-- Witness for C5 at a concrete accepted input. -/
theorem correlacion_acotada_witness :
    -1 ≤ ((calcularCorrelacion [1, 2, 3] [1, 2, 3] "bilateral").toOption.getD
        default).coeficiente ∧
      ((calcularCorrelacion [1, 2, 3] [1, 2, 3] "bilateral").toOption.getD
        default).coeficiente ≤ 1 ∧
      0 ≤ ((calcularCorrelacion [1, 2, 3] [1, 2, 3] "bilateral").toOption.getD
        default).pValor ∧
      ((calcularCorrelacion [1, 2, 3] [1, 2, 3] "bilateral").toOption.getD
        default).pValor ≤ 1 := by
  obtain ⟨r, hok, -⟩ :=
    calcularCorrelacion_casos [1, 2, 3] [1, 2, 3] "bilateral" rfl (by simp)
  rw [hok]
  simpa [Except.toOption] using
    correlacion_acotada [1, 2, 3] [1, 2, 3] "bilateral" r hok

end StatSim
